import Mathlib

/-!
# iotnetlab: radio classifier, scan and connect workflows

A shallow embedding of `pkg/wifi.go` of `uinta-labs/iotnetlab`.

* Go `uint32`/`uint8`/`int32` values are `Nat`/`Int`; conversions between them are
  written out with explicit `%`.
* A Go `string` and a `[]byte` are both byte sequences; both are `String` here and
  `string(b)` / `[]byte(s)` are the identity.
* The NetworkManager bus is a record of answers, one per object and member
  (`Bus`); a failed call is `Except.error`.
* A run of a function that can stop the process (`log.Fatalf`) or panic (a failed
  type assertion) ends in a `GoResult`.
-/

namespace Iotnetlab

/-! ## Security flags (`NM_802_11_AP_SEC_*`) -/

def NM_802_11_AP_SEC_NONE : Nat := 0x0000
def NM_802_11_AP_SEC_PAIR_WEP40 : Nat := 0x0001
def NM_802_11_AP_SEC_PAIR_WEP104 : Nat := 0x0002
def NM_802_11_AP_SEC_PAIR_TKIP : Nat := 0x0004
def NM_802_11_AP_SEC_PAIR_CCMP : Nat := 0x0008
def NM_802_11_AP_SEC_GROUP_WEP40 : Nat := 0x0010
def NM_802_11_AP_SEC_GROUP_WEP104 : Nat := 0x0020
def NM_802_11_AP_SEC_GROUP_TKIP : Nat := 0x0040
def NM_802_11_AP_SEC_GROUP_CCMP : Nat := 0x0080
def NM_802_11_AP_SEC_KEY_MGMT_PSK : Nat := 0x0100
def NM_802_11_AP_SEC_KEY_MGMT_802_1X : Nat := 0x0200

/-- The enum `dev.WiFiSecurityType`. -/
inductive WiFiSecurityType where
  | WIFI_SECURITY_UNKNOWN
  | WIFI_SECURITY_OPEN
  | WIFI_SECURITY_WEP
  | WIFI_SECURITY_WPA_PSK
  | WIFI_SECURITY_WPA_EAP
  | WIFI_SECURITY_WPA2_PSK
  | WIFI_SECURITY_WPA2_EAP
  | WIFI_SECURITY_WPA3_PSK
  | WIFI_SECURITY_WPA3_EAP
  deriving DecidableEq, Repr

/-- The enum `dev.WiFiSignalRating`. -/
inductive WiFiSignalRating where
  | WIFI_SIGNAL_STRENGTH_NONE
  | WIFI_SIGNAL_STRENGTH_POOR
  | WIFI_SIGNAL_STRENGTH_FAIR
  | WIFI_SIGNAL_STRENGTH_GOOD
  | WIFI_SIGNAL_STRENGTH_EXCELLENT
  deriving DecidableEq, Repr

open WiFiSecurityType WiFiSignalRating

/-- The function `determineSecurity` of `wifi.go`, on `uint32` masks. -/
def determineSecurity (wpaFlags rsnFlags : Nat) : WiFiSecurityType :=
  if wpaFlags = NM_802_11_AP_SEC_NONE ∧ rsnFlags = NM_802_11_AP_SEC_NONE then
    WIFI_SECURITY_OPEN
  else if wpaFlags &&& (NM_802_11_AP_SEC_PAIR_WEP40 ||| NM_802_11_AP_SEC_PAIR_WEP104 |||
      NM_802_11_AP_SEC_GROUP_WEP40 ||| NM_802_11_AP_SEC_GROUP_WEP104) ≠ 0 then
    WIFI_SECURITY_WEP
  else if rsnFlags &&& NM_802_11_AP_SEC_KEY_MGMT_802_1X ≠ 0 ∧
      rsnFlags &&& (NM_802_11_AP_SEC_PAIR_CCMP ||| NM_802_11_AP_SEC_GROUP_CCMP) ≠ 0 then
    WIFI_SECURITY_WPA3_EAP
  else if rsnFlags &&& NM_802_11_AP_SEC_KEY_MGMT_PSK ≠ 0 ∧
      rsnFlags &&& (NM_802_11_AP_SEC_PAIR_CCMP ||| NM_802_11_AP_SEC_GROUP_CCMP) ≠ 0 then
    WIFI_SECURITY_WPA3_PSK
  else if rsnFlags &&& NM_802_11_AP_SEC_KEY_MGMT_802_1X ≠ 0 then
    WIFI_SECURITY_WPA2_EAP
  else if rsnFlags &&& NM_802_11_AP_SEC_KEY_MGMT_PSK ≠ 0 then
    WIFI_SECURITY_WPA2_PSK
  else if wpaFlags &&& NM_802_11_AP_SEC_KEY_MGMT_802_1X ≠ 0 then
    WIFI_SECURITY_WPA_EAP
  else if wpaFlags &&& NM_802_11_AP_SEC_KEY_MGMT_PSK ≠ 0 then
    WIFI_SECURITY_WPA_PSK
  else
    WIFI_SECURITY_UNKNOWN

/-- The function `rssiToRating` of `wifi.go`. -/
def rssiToRating (rssi : Int) : WiFiSignalRating :=
  if rssi ≥ -50 then WIFI_SIGNAL_STRENGTH_EXCELLENT
  else if rssi ≥ -60 then WIFI_SIGNAL_STRENGTH_GOOD
  else if rssi ≥ -70 then WIFI_SIGNAL_STRENGTH_FAIR
  else if rssi ≥ -80 then WIFI_SIGNAL_STRENGTH_POOR
  else WIFI_SIGNAL_STRENGTH_NONE

/-! ### The precedence order of the specification -/

/-- Whether the mask `flags` has the single flag `bit` set. -/
def hasFlag (flags bit : Nat) : Bool := flags &&& bit != 0

/-- The pairwise and group WEP bits. -/
def wepBits : List Nat := [0x0001, 0x0002, 0x0010, 0x0020]

/-- Whether the mask has one of the two CCMP bits, `0x0008` or `0x0080`. -/
def hasCCMP (flags : Nat) : Bool := hasFlag flags 0x0008 || hasFlag flags 0x0080

/-- The categories after open and WEP, in the order the specification lists them, each
with its condition on `(wpaFlags, rsnFlags)`. -/
def securityPrecedence : List ((Nat → Nat → Bool) × WiFiSecurityType) :=
  [ (fun _ rsn => hasFlag rsn 0x0200 && hasCCMP rsn, WIFI_SECURITY_WPA3_EAP),
    (fun _ rsn => hasFlag rsn 0x0100 && hasCCMP rsn, WIFI_SECURITY_WPA3_PSK),
    (fun _ rsn => hasFlag rsn 0x0200, WIFI_SECURITY_WPA2_EAP),
    (fun _ rsn => hasFlag rsn 0x0100, WIFI_SECURITY_WPA2_PSK),
    (fun wpa _ => hasFlag wpa 0x0200, WIFI_SECURITY_WPA_EAP),
    (fun wpa _ => hasFlag wpa 0x0100, WIFI_SECURITY_WPA_PSK) ]

/-- The first category of `securityPrecedence` whose condition holds, unknown when none
does. -/
def firstApplicable (wpaFlags rsnFlags : Nat) : WiFiSecurityType :=
  match securityPrecedence.find? (fun p => p.1 wpaFlags rsnFlags) with
  | some p => p.2
  | none => WIFI_SECURITY_UNKNOWN

/-! ## Channel lookup (`frequencyToChannel`) -/

/-- The local struct `freqRange` of `frequencyToChannel`. -/
structure freqRange where
  low : Int
  high : Int
  deriving DecidableEq, Repr

/-- One entry `{low, high}: c` of the map literal. -/
abbrev entry (low high c : Int) : freqRange × Int := (⟨low, high⟩, c)

/-- The entries of the map literal `freqRangeToChannel`, in the order they are written:
14 entries for 2.4 GHz, 37 for 5 GHz, 60 for 6 GHz. -/
def freqRangeToChannel : List (freqRange × Int) :=
  [
    entry 2401 2423 1, entry 2406 2428 2, entry 2411 2433 3, entry 2416 2438 4,
    entry 2421 2443 5, entry 2426 2448 6, entry 2431 2453 7, entry 2436 2458 8,
    entry 2441 2463 9, entry 2446 2468 10, entry 2451 2473 11, entry 2456 2478 12,
    entry 2461 2483 13, entry 2473 2495 14, entry 5150 5170 32, entry 5170 5190 36,
    entry 5190 5210 40, entry 5210 5230 44, entry 5230 5250 48, entry 5250 5270 52,
    entry 5270 5290 56, entry 5290 5310 60, entry 5310 5330 64, entry 5330 5350 68,
    entry 5350 5370 72, entry 5370 5390 76, entry 5390 5410 80, entry 5410 5430 84,
    entry 5430 5450 88, entry 5450 5470 92, entry 5470 5490 96, entry 5490 5510 100,
    entry 5510 5530 104, entry 5530 5550 108, entry 5550 5570 112, entry 5570 5590 116,
    entry 5590 5610 120, entry 5610 5630 124, entry 5630 5650 128, entry 5650 5670 132,
    entry 5670 5690 136, entry 5690 5710 140, entry 5710 5730 144, entry 5735 5755 149,
    entry 5755 5775 153, entry 5775 5795 157, entry 5795 5815 161, entry 5815 5835 165,
    entry 5835 5855 169, entry 5855 5875 173, entry 5875 5895 177, entry 5925 5945 2,
    entry 5945 5965 1, entry 5965 5985 5, entry 5985 6005 9, entry 6005 6025 13,
    entry 6025 6045 17, entry 6045 6065 21, entry 6065 6085 25, entry 6085 6105 29,
    entry 6105 6125 33, entry 6125 6145 37, entry 6145 6165 41, entry 6165 6185 45,
    entry 6185 6205 49, entry 6205 6225 53, entry 6225 6245 57, entry 6245 6265 61,
    entry 6265 6285 65, entry 6285 6305 69, entry 6305 6325 73, entry 6325 6345 77,
    entry 6345 6365 81, entry 6365 6385 85, entry 6385 6405 89, entry 6405 6425 93,
    entry 6425 6445 97, entry 6445 6465 101, entry 6465 6485 105, entry 6485 6505 109,
    entry 6505 6525 113, entry 6525 6545 117, entry 6545 6565 121, entry 6565 6585 125,
    entry 6585 6605 129, entry 6605 6625 133, entry 6625 6645 137, entry 6645 6665 141,
    entry 6665 6685 145, entry 6685 6705 149, entry 6705 6725 153, entry 6725 6745 157,
    entry 6745 6765 161, entry 6765 6785 165, entry 6785 6805 169, entry 6805 6825 173,
    entry 6825 6845 177, entry 6845 6865 181, entry 6865 6885 185, entry 6885 6905 189,
    entry 6905 6925 193, entry 6925 6945 197, entry 6945 6965 201, entry 6965 6985 205,
    entry 6985 7005 209, entry 7005 7025 213, entry 7025 7045 217, entry 7045 7065 221,
    entry 7065 7085 225, entry 7085 7105 229, entry 7105 7125 233 ]

/-- The test of the loop body, `freq >= r.low && freq <= r.high`. -/
def freqRange.holds (r : freqRange) (freq : Int) : Bool :=
  decide (freq ≥ r.low) && decide (freq ≤ r.high)

/-- The loop `for r, c := range freqRangeToChannel` followed by `return 0`, over the
entries in the order `order` in which the map is visited. -/
def rangeLoop (freq : Int) : List (freqRange × Int) → Int
  | [] => 0
  | (r, c) :: rest => if r.holds freq then c else rangeLoop freq rest

/-- The function `frequencyToChannel` of `wifi.go`. Go does not fix the order in which
`range` visits a map, so the order of one call is the argument `order`, a permutation of
`freqRangeToChannel`. -/
def frequencyToChannel (order : List (freqRange × Int)) (freq : Int) : Int :=
  rangeLoop freq order

/-- The 5 GHz channels of the table: 32 to 144 and 149 to 177, in steps of 4. -/
def fiveGHzChannels : List Int :=
  [32, 36, 40, 44, 48, 52, 56, 60, 64, 68, 72, 76, 80, 84, 88, 92, 96, 100, 104, 108, 112,
   116, 120, 124, 128, 132, 136, 140, 144, 149, 153, 157, 161, 165, 169, 173, 177]

/-! ## Go results and the NetworkManager bus -/

/-- How a run of a Go function ends: it returns, it panics, or `log.Fatalf` stops the
process. -/
inductive GoResult (α : Type) where
  | ret (a : α)
  | panic (msg : String)
  | fatal (msg : String)
  deriving DecidableEq, Repr

/-- A `dbus.ObjectPath`. -/
abbrev ObjectPath := String

/-- A value wrapped by `dbus.MakeVariant` in a connection profile. -/
inductive Variant where
  | str (s : String)
  | bytes (b : String)
  | strs (l : List String)
  | bool (b : Bool)
  | int (n : Int)
  | addressData (l : List (String × Nat))
  deriving DecidableEq, Repr

/-- A settings group, `map[string]dbus.Variant`. -/
abbrev Settings := List (String × Variant)

/-- A connection profile, `map[string]map[string]dbus.Variant`. -/
abbrev Profile := List (String × Settings)

/-- The assignment `m[k] = v` on a map kept as a list of its entries. -/
def mapSet {β : Type} (m : List (String × β)) (k : String) (v : β) : List (String × β) :=
  if m.any (fun p => p.1 == k) then m.map (fun p => if p.1 == k then (k, v) else p)
  else m ++ [(k, v)]

/-- The lookup `m[k]` on a map kept as a list of its entries. -/
def mapGet {β : Type} (m : List (String × β)) (k : String) : Option β :=
  (m.find? (fun p => p.1 == k)).map Prod.snd

/-- A `dbus.Signal`: its name, the path of the object that sent it, and its body of
`uint32` values. -/
structure Signal where
  Name : String
  Path : ObjectPath
  Body : List Nat
  deriving DecidableEq, Repr

/-- The answers of the NetworkManager bus during one run: for each object and member the
code reads or calls, the value returned or the error. The values have the types the bus
interface declares (`uint32` and `uint8` as `Nat`). `signals` is the stream delivered to a
channel registered with `conn.Signal`: each signal with the time, in milliseconds, between
the start of the `select` that is waiting and the arrival of the signal. -/
structure Bus where
  AllDevices : Except String (List ObjectPath)
  DeviceType : ObjectPath → Except String Nat
  Interface : ObjectPath → Except String String
  RequestScan : ObjectPath → Except String Unit
  GetAccessPoints : ObjectPath → Except String (List ObjectPath)
  Ssid : ObjectPath → Except String String
  HwAddress : ObjectPath → Except String String
  Frequency : ObjectPath → Except String Nat
  Strength : ObjectPath → Except String Nat
  WpaFlags : ObjectPath → Except String Nat
  RsnFlags : ObjectPath → Except String Nat
  AddConnection : Profile → Except String ObjectPath
  ActivateConnection : ObjectPath → ObjectPath → ObjectPath → Except String ObjectPath
  signals : List (Nat × Signal)
  ListConnections : Except String (List ObjectPath)
  GetSettings : ObjectPath → Except String Profile
  Delete : ObjectPath → Except String Unit
  ActiveConnections : Except String (List ObjectPath)
  ActiveDevices : ObjectPath → Except String (List ObjectPath)
  Deactivate : ObjectPath → Except String Unit
  AddMatchSignal : Except String Unit
  ActiveConnection : ObjectPath → Except String ObjectPath

/-- A call that reaches the bus connection. -/
inductive BusCall where
  | GetProperty (object : ObjectPath) (property : String)
  | AddConnection (settings : Profile)
  | ActivateConnection (connection device specificObject : ObjectPath)
  | Signal
  | ListConnections
  | GetSettings (connection : ObjectPath)
  | Delete (connection : ObjectPath)
  | Deactivate (activeConnection : ObjectPath)
  | AddMatchSignal
  deriving DecidableEq, Repr

/-- The result of `v, _ := obj.GetProperty(p)` followed by `v.Value()`: the error is
dropped, and after a failed read `v` is the zero `dbus.Variant`, whose value is nil. -/
def valueOrNil {α : Type} (r : Except String α) : Option α :=
  match r with
  | .ok v => some v
  | .error _ => none

/-- The type assertion `x.(T)` without the comma-ok form: it panics on a nil interface. -/
def assertType {α : Type} (x : Option α) : GoResult α :=
  match x with
  | some v => .ret v
  | none => .panic "interface conversion: interface is nil"

/-- The conversion `int32(x)` of a `uint32`. -/
def int32OfUint32 (x : Nat) : Int :=
  if x % 2 ^ 32 < 2 ^ 31 then (x % 2 ^ 32 : Nat) else ((x % 2 ^ 32 : Nat) : Int) - 2 ^ 32

/-- The conversion `int32(x)` of a `uint8`. -/
def int32OfUint8 (x : Nat) : Int := (x % 2 ^ 8 : Nat)

/-! ## The scan workflow (`WifiScan`) -/

/-- The message `dev.WiFiEAPConfig`. -/
structure WiFiEAPConfig where
  Identity : String
  Password : String
  ClientCertificate : String
  CaCertificate : String
  deriving DecidableEq, Repr

/-- The message `dev.WiFiAccessPoint`. -/
structure WiFiAccessPoint where
  SSID : String
  BSSID : String
  RSSI : Int
  Frequency : Int
  Channel : Int
  SignalRating : WiFiSignalRating
  SecurityType : WiFiSecurityType
  EapConfig : Option WiFiEAPConfig
  deriving DecidableEq, Repr

/-- The body of the loop `for _, ap := range aps` of `WifiScan`: six property reads whose
errors are dropped, the type assertions on their values, and the access point built from
them. `order` is the order in which this iteration's call of `frequencyToChannel` visits
its map. -/
def scanAccessPoint (bus : Bus) (order : List (freqRange × Int)) (ap : ObjectPath) :
    GoResult WiFiAccessPoint :=
  let ssid := valueOrNil (bus.Ssid ap)
  let bsid := valueOrNil (bus.HwAddress ap)
  let frequency := valueOrNil (bus.Frequency ap)
  let strength := valueOrNil (bus.Strength ap)
  match assertType ssid with
  | .panic m => .panic m
  | .fatal m => .fatal m
  | .ret ssidStr =>
    let wpaFlags := valueOrNil (bus.WpaFlags ap)
    let rsnFlags := valueOrNil (bus.RsnFlags ap)
    match assertType wpaFlags, assertType rsnFlags with
    | .ret w, .ret r =>
      let protoSecurityType := determineSecurity w r
      match assertType bsid, assertType strength, assertType frequency with
      | .ret b, .ret s, .ret f =>
        .ret { SSID := ssidStr
               BSSID := b
               RSSI := int32OfUint8 s
               Frequency := int32OfUint32 f
               Channel := frequencyToChannel order (int32OfUint32 f)
               SignalRating := rssiToRating (int32OfUint8 s)
               SecurityType := protoSecurityType
               EapConfig := none }
      | _, _, _ => .panic "interface conversion: interface is nil"
    | _, _ => .panic "interface conversion: interface is nil"

/-- The loop `for _, ap := range aps` of `WifiScan`, appending to `accessPoints`.
`mapOrder ap` is the map visiting order of the `frequencyToChannel` call made for `ap`. -/
def scanAccessPoints (bus : Bus) (mapOrder : ObjectPath → List (freqRange × Int)) :
    List ObjectPath → List WiFiAccessPoint → GoResult (List WiFiAccessPoint)
  | [], accessPoints => .ret accessPoints
  | ap :: rest, accessPoints =>
    match scanAccessPoint bus (mapOrder ap) ap with
    | .ret a => scanAccessPoints bus mapOrder rest (accessPoints ++ [a])
    | .panic m => .panic m
    | .fatal m => .fatal m

/-- The loop `for _, d := range devices` of `WifiScan`; each `continue` of the source is
the recursive call on the remaining devices with `accessPoints` unchanged. -/
def scanDevices (bus : Bus) (mapOrder : ObjectPath → List (freqRange × Int))
    (networkInterfaceName : String) :
    List ObjectPath → List WiFiAccessPoint → GoResult (List WiFiAccessPoint)
  | [], accessPoints => .ret accessPoints
  | d :: rest, accessPoints =>
    match bus.DeviceType d with
    | .error _ => scanDevices bus mapOrder networkInterfaceName rest accessPoints
    | .ok deviceType =>
      match bus.Interface d with
      | .error _ => scanDevices bus mapOrder networkInterfaceName rest accessPoints
      | .ok deviceInterfaceName =>
        if networkInterfaceName ≠ "" ∧ deviceInterfaceName ≠ networkInterfaceName then
          scanDevices bus mapOrder networkInterfaceName rest accessPoints
        else if deviceType = 2 then
          match bus.RequestScan d with
          | .error _ => scanDevices bus mapOrder networkInterfaceName rest accessPoints
          | .ok _ =>
            match bus.GetAccessPoints d with
            | .error _ => scanDevices bus mapOrder networkInterfaceName rest accessPoints
            | .ok aps =>
              match scanAccessPoints bus mapOrder aps accessPoints with
              | .ret accessPoints2 =>
                scanDevices bus mapOrder networkInterfaceName rest accessPoints2
              | .panic m => .panic m
              | .fatal m => .fatal m
        else scanDevices bus mapOrder networkInterfaceName rest accessPoints

/-- The function `WifiScan` of `wifi.go`: the pair `(accessPoints, err)` it returns, with
`err = nil` as `none`. -/
def WifiScan (bus : Bus) (mapOrder : ObjectPath → List (freqRange × Int))
    (networkInterfaceName : String) : GoResult (List WiFiAccessPoint × Option String) :=
  match bus.AllDevices with
  | .error e => .fatal ("Failed to get devices: " ++ e)
  | .ok devices =>
    match scanDevices bus mapOrder networkInterfaceName devices [] with
    | .ret accessPoints => .ret (accessPoints, none)
    | .panic m => .panic m
    | .fatal m => .fatal m

/-! ### The scan as the specification describes it -/

/-- The access points of a device that takes part in the scan: the device is wireless
(type 2), matches the interface filter when one is given, and its type read, interface
read, `RequestScan` and `GetAccessPoints` all succeed. Any other device gives none. -/
def scannedAccessPoints (bus : Bus) (networkInterfaceName : String) (d : ObjectPath) :
    List ObjectPath :=
  match bus.DeviceType d, bus.Interface d with
  | .ok deviceType, .ok deviceInterfaceName =>
    if deviceType = 2 ∧ (networkInterfaceName = "" ∨ deviceInterfaceName = networkInterfaceName)
    then
      match bus.RequestScan d, bus.GetAccessPoints d with
      | .ok _, .ok aps => aps
      | _, _ => []
    else []
  | _, _ => []

/-- Whether the six property reads of an access point all succeed. -/
def apReadable (bus : Bus) (ap : ObjectPath) : Bool :=
  (bus.Ssid ap).toBool && (bus.HwAddress ap).toBool && (bus.Frequency ap).toBool &&
  (bus.Strength ap).toBool && (bus.WpaFlags ap).toBool && (bus.RsnFlags ap).toBool

/-- The classified access point of the specification: present when all six reads succeed,
skipped otherwise. -/
def classifyAccessPoint (bus : Bus) (order : List (freqRange × Int)) (ap : ObjectPath) :
    Option WiFiAccessPoint :=
  match bus.Ssid ap, bus.HwAddress ap, bus.Frequency ap, bus.Strength ap, bus.WpaFlags ap,
    bus.RsnFlags ap with
  | .ok ssid, .ok bsid, .ok f, .ok s, .ok w, .ok r =>
    some { SSID := ssid
           BSSID := bsid
           RSSI := int32OfUint8 s
           Frequency := int32OfUint32 f
           Channel := frequencyToChannel order (int32OfUint32 f)
           SignalRating := rssiToRating (int32OfUint8 s)
           SecurityType := determineSecurity w r
           EapConfig := none }
  | _, _, _, _, _, _ => none

/-- The scan of the specification: in device order, the classified access points of the
devices that take part; a failing device or access point is skipped. -/
def WifiScanSpec (bus : Bus) (mapOrder : ObjectPath → List (freqRange × Int))
    (networkInterfaceName : String) (devices : List ObjectPath) : List WiFiAccessPoint :=
  devices.flatMap (fun d =>
    (scannedAccessPoints bus networkInterfaceName d).filterMap
      (fun ap => classifyAccessPoint bus (mapOrder ap) ap))

/-! ## The client connection workflow (`ConnectWiFi`) -/

/-- The oneof `secret` of `dev.WiFiConnectRequest`. -/
inductive Secret where
  | IsOpen (IsOpen : Bool)
  | Password (Password : String)
  | EapConfig (EapConfig : WiFiEAPConfig)
  deriving DecidableEq, Repr

/-- The message `dev.WiFiConnectRequest`; `Secret = none` is the oneof left unset. -/
structure WiFiConnectRequest where
  SSID : String
  Secret : Option Secret
  deriving DecidableEq, Repr

/-- What a run of a workflow did: the calls it made on the bus connection, in order, how it
ended (`ret none` is a nil error), and the time in milliseconds it spent waiting for
signals. -/
structure Run where
  calls : List BusCall
  result : GoResult (Option String)
  waited : Nat
  deriving DecidableEq, Repr

/-- The `switch request.GetSecret().(type)` of `ConnectWiFi`: the profile with the groups
of the secret variant added, or the error returned from inside the switch. -/
def secretSettings (connection : Profile) (secret : Option Secret) : Except String Profile :=
  match secret with
  | some (.IsOpen isOpen) =>
    if !isOpen then
      .error "secret oneOf 'IsOpen' must be true, as any other condition must be specified instead"
    else
      .ok (mapSet connection "802-11-wireless-security" [("key-mgmt", .str "none")])
  | some (.Password password) =>
    .ok (mapSet connection "802-11-wireless-security"
      [("key-mgmt", .str "wpa-psk"), ("psk", .str password)])
  | some (.EapConfig eapConfig) =>
    let connection := mapSet connection "802-11-wireless-security"
      [("key-mgmt", .str "wpa-eap")]
    let dot1x : Settings :=
      [("eap", .strs ["tls", "peap", "ttls"]), ("identity", .str eapConfig.Identity),
       ("password", .str eapConfig.Password)]
    let dot1x :=
      if eapConfig.ClientCertificate ≠ "" then
        mapSet dot1x "client-cert" (.str eapConfig.ClientCertificate)
      else dot1x
    let dot1x :=
      if eapConfig.CaCertificate ≠ "" then mapSet dot1x "ca-cert" (.str eapConfig.CaCertificate)
      else dot1x
    .ok (mapSet connection "802-1x" dot1x)
  | none => .ok connection

/-- The device loop of `ConnectWiFi`: the first device whose type read succeeds with type
2, or the empty path; `calls` collects the property reads. -/
def findWifiDevice (bus : Bus) : List ObjectPath → List BusCall → ObjectPath × List BusCall
  | [], calls => ("", calls)
  | d :: rest, calls =>
    let calls := calls ++ [.GetProperty d "org.freedesktop.NetworkManager.Device.DeviceType"]
    match bus.DeviceType d with
    | .error _ => findWifiDevice bus rest calls
    | .ok deviceType => if deviceType = 2 then (d, calls) else findWifiDevice bus rest calls

/-- The `for`/`select` loop of `monitorConnectStatus` over the signals still to come,
`waited` milliseconds after the wait began. Every iteration starts a new
`time.After(30 * time.Second)`: a signal is received when it arrives less than 30000 ms
after the iteration began, otherwise the timer fires. -/
def monitorConnectLoop : List (Nat × Signal) → Nat → GoResult (Option String) × Nat
  | [], waited => (.ret (some "connection timeout"), waited + 30000)
  | (delay, sig) :: rest, waited =>
    if delay < 30000 then
      if sig.Name = "org.freedesktop.NetworkManager.Connection.Active.StateChanged" then
        match sig.Body with
        | [] => (.panic "index out of range", waited + delay)
        | state :: _ =>
          if state = 2 then (.ret none, waited + delay)
          else if state = 3 then (.ret (some "connection deactivated"), waited + delay)
          else monitorConnectLoop rest (waited + delay)
      else monitorConnectLoop rest (waited + delay)
    else (.ret (some "connection timeout"), waited + 30000)

/-- The function `monitorConnectStatus` of `wifi.go`: it registers its channel with
`conn.Signal` and waits. -/
def monitorConnectStatus (bus : Bus) (calls : List BusCall) : Run :=
  let r := monitorConnectLoop bus.signals 0
  { calls := calls ++ [.Signal], result := r.1, waited := r.2 }

/-- The function `ConnectWiFi` of `wifi.go`. -/
def ConnectWiFi (bus : Bus) (request : WiFiConnectRequest) : Run :=
  let connection : Profile :=
    [("802-11-wireless", [("ssid", .bytes request.SSID), ("mode", .str "infrastructure")]),
     ("connection", [("type", .str "802-11-wireless"), ("id", .str request.SSID)])]
  match secretSettings connection request.Secret with
  | .error e => { calls := [], result := .ret (some e), waited := 0 }
  | .ok connection =>
    let calls := [BusCall.AddConnection connection]
    match bus.AddConnection connection with
    | .error e =>
      { calls := calls, result := .ret (some ("failed to add connection: " ++ e)), waited := 0 }
    | .ok newConnPath =>
      let calls := calls ++ [.GetProperty "/org/freedesktop/NetworkManager"
        "org.freedesktop.NetworkManager.AllDevices"]
      match bus.AllDevices with
      | .error e =>
        { calls := calls, result := .ret (some ("failed to get devices: " ++ e)), waited := 0 }
      | .ok devices =>
        let (wifiDevice, calls) := findWifiDevice bus devices calls
        if wifiDevice = "" then
          { calls := calls, result := .ret (some "no WiFi device found"), waited := 0 }
        else
          let calls := calls ++ [.ActivateConnection newConnPath wifiDevice "/"]
          match bus.ActivateConnection newConnPath wifiDevice "/" with
          | .error e =>
            { calls := calls, result := .ret (some ("failed to activate connection: " ++ e)),
              waited := 0 }
          | .ok _ => monitorConnectStatus bus calls

/-! ## The hotspot workflow (`StartHotspot`) -/

/-- The package variable `ipv4Data`, with `addrData` inside. -/
def ipv4Data : Settings :=
  [("method", .str "shared"), ("address-data", .addressData [("172.24.1.1", 24)]),
   ("gateway", .str "172.24.1.1")]

/-- The package variable `ipv6Data`. -/
def ipv6Data : Settings := [("method", .str "ignore")]

/-- The read `settingsInfo["802-11-wireless"]["ssid"].Value().([]byte)` in its comma-ok
form: the bytes when the group and the key exist and hold a byte slice, `none` when `ok`
is false. -/
def ssidOfSettings (settingsInfo : Profile) : Option String :=
  match mapGet settingsInfo "802-11-wireless" with
  | none => none
  | some group =>
    match mapGet group "ssid" with
    | some (.bytes ssidBytes) => some ssidBytes
    | _ => none

/-- The loop `for _, c := range connections` of `StartHotspot`. It ends with `none` when
the loop runs to its end, and with the result of `StartHotspot` when the loop leaves the
function (`log.Fatalf` on unreadable settings, the returned error of a failed `Delete`).
`json.Marshal` of the settings, used for a log line only, does not fail. -/
def removeExisting (bus : Bus) (hotspotSSID : String) :
    List ObjectPath → List BusCall → Option (GoResult (Option String)) × List BusCall
  | [], calls => (none, calls)
  | c :: rest, calls =>
    let calls := calls ++ [.GetSettings c]
    match bus.GetSettings c with
    | .error e => (some (.fatal ("Failed to get connection settings: " ++ e)), calls)
    | .ok settingsInfo =>
      match ssidOfSettings settingsInfo with
      | none => removeExisting bus hotspotSSID rest calls
      | some ssid =>
        if ssid = hotspotSSID then
          let calls := calls ++ [.Delete c]
          match bus.Delete c with
          | .error e =>
            (some (.ret (some ("failed to delete existing connection: " ++ e))), calls)
          | .ok _ => removeExisting bus hotspotSSID rest calls
        else removeExisting bus hotspotSSID rest calls

/-- The profile `hotspotConfig` built by `StartHotspot`. -/
def hotspotConfig (hotspotSSID hotspotPassword hotspotInterfaceName : String) : Profile :=
  let connectionParams : Settings :=
    [("type", .str "802-11-wireless"), ("id", .str hotspotSSID), ("autoconnect", .bool false),
     ("autoconnect-priority", .int 0)]
  let connectionParams :=
    if hotspotInterfaceName ≠ "" then
      mapSet connectionParams "interface-name" (.str hotspotInterfaceName)
    else connectionParams
  let wirelessSecurity : Settings :=
    [("key-mgmt", .str "wpa-psk"), ("psk", .str hotspotPassword)]
  let wirelessSecurity := mapSet wirelessSecurity "pmf" (.int 1)
  let wirelessSecurity := mapSet wirelessSecurity "pairwise" (.strs ["ccmp"])
  [("connection", connectionParams),
   ("802-11-wireless",
     [("ssid", .bytes hotspotSSID), ("mode", .str "ap"), ("band", .str "bg"),
      ("hidden", .bool false)]),
   ("802-11-wireless-security", wirelessSecurity),
   ("ipv4", ipv4Data),
   ("ipv6", ipv6Data)]

/-- The device loop of `StartHotspot`: with an interface name, the first device whose two
reads succeed and whose interface is that name; without one, the first such device of
type 2; the empty path when there is none. -/
def findHotspotDevice (bus : Bus) (hotspotInterfaceName : String) :
    List ObjectPath → List BusCall → ObjectPath × List BusCall
  | [], calls => ("", calls)
  | d :: rest, calls =>
    let calls := calls ++ [.GetProperty d "org.freedesktop.NetworkManager.Device.DeviceType"]
    match bus.DeviceType d with
    | .error _ => findHotspotDevice bus hotspotInterfaceName rest calls
    | .ok deviceType =>
      let calls := calls ++ [.GetProperty d "org.freedesktop.NetworkManager.Device.Interface"]
      match bus.Interface d with
      | .error _ => findHotspotDevice bus hotspotInterfaceName rest calls
      | .ok deviceInterfaceName =>
        if hotspotInterfaceName ≠ "" then
          if deviceInterfaceName ≠ hotspotInterfaceName then
            findHotspotDevice bus hotspotInterfaceName rest calls
          else (d, calls)
        else if deviceType = 2 then (d, calls)
        else findHotspotDevice bus hotspotInterfaceName rest calls

/-- The loop over the active connections of `StartHotspot`: `Deactivate` is called on each
one that lists `wifiDevice` among its devices, and its outcome is not looked at. -/
def deactivateActive (bus : Bus) (wifiDevice : ObjectPath) :
    List ObjectPath → List BusCall → List BusCall
  | [], calls => calls
  | c :: rest, calls =>
    let calls :=
      calls ++ [.GetProperty c "org.freedesktop.NetworkManager.Connection.Active.Devices"]
    match bus.ActiveDevices c with
    | .error _ => deactivateActive bus wifiDevice rest calls
    | .ok device =>
      if wifiDevice ∈ device then deactivateActive bus wifiDevice rest (calls ++ [.Deactivate c])
      else deactivateActive bus wifiDevice rest calls

/-- The `for`/`select` loop of `monitorHotspotStart` over the signals still to come,
`waited` milliseconds after the wait began. As in `monitorConnectLoop`, every iteration
starts a new `time.After(30 * time.Second)`. -/
def monitorHotspotLoop (bus : Bus) (connPath : ObjectPath) :
    List (Nat × Signal) → Nat → List BusCall → Run
  | [], waited, calls =>
    { calls := calls, result := .ret (some "hotspot activation timeout"),
      waited := waited + 30000 }
  | (delay, sig) :: rest, waited, calls =>
    if delay < 30000 then
      if sig.Name = "org.freedesktop.NetworkManager.Connection.Active.StateChanged" then
        match sig.Body with
        | [] => { calls := calls, result := .panic "index out of range", waited := waited + delay }
        | state :: _ =>
          if state = 2 then
            let calls := calls ++
              [.GetProperty sig.Path "org.freedesktop.NetworkManager.Connection.Active.Connection"]
            match bus.ActiveConnection sig.Path with
            | .error _ => monitorHotspotLoop bus connPath rest (waited + delay) calls
            | .ok connProp =>
              if connProp ≠ connPath then
                monitorHotspotLoop bus connPath rest (waited + delay) calls
              else { calls := calls, result := .ret none, waited := waited + delay }
          else if state = 3 then monitorHotspotLoop bus connPath rest (waited + delay) calls
          else monitorHotspotLoop bus connPath rest (waited + delay) calls
      else monitorHotspotLoop bus connPath rest (waited + delay) calls
    else
      { calls := calls, result := .ret (some "hotspot activation timeout"),
        waited := waited + 30000 }

/-- The function `monitorHotspotStart` of `wifi.go`: it registers its channel with
`conn.Signal` and waits. -/
def monitorHotspotStart (bus : Bus) (connPath : ObjectPath) (calls : List BusCall) : Run :=
  monitorHotspotLoop bus connPath bus.signals 0 (calls ++ [.Signal])

/-- The function `StartHotspot` of `wifi.go`. The goroutine it starts (`AddMatchSignal`,
then `monitorHotspotStart`, whose error is logged and dropped before `connActivated` is
closed) runs beside the `ActivateConnection` call; the calls are listed with
`AddMatchSignal` first, then `ActivateConnection`, then those of the monitor. A failed
`AddMatchSignal` is the `panic(err)` of the goroutine; a failed `ActivateConnection`
returns without waiting for the goroutine. -/
def StartHotspot (bus : Bus) (hotspotSSID hotspotPassword hotspotInterfaceName : String) :
    Run :=
  let calls := [BusCall.ListConnections]
  match bus.ListConnections with
  | .error e =>
    { calls := calls, result := .ret (some ("failed to list connections: " ++ e)), waited := 0 }
  | .ok connections =>
    match removeExisting bus hotspotSSID connections calls with
    | (some r, calls) => { calls := calls, result := r, waited := 0 }
    | (none, calls) =>
      let config := hotspotConfig hotspotSSID hotspotPassword hotspotInterfaceName
      let calls := calls ++ [.AddConnection config]
      match bus.AddConnection config with
      | .error e =>
        { calls := calls, result := .ret (some ("failed to add connection: " ++ e)),
          waited := 0 }
      | .ok newConnPath =>
        let calls := calls ++ [.GetProperty "/org/freedesktop/NetworkManager"
          "org.freedesktop.NetworkManager.AllDevices"]
        match bus.AllDevices with
        | .error e =>
          { calls := calls, result := .ret (some ("failed to get devices: " ++ e)),
            waited := 0 }
        | .ok devices =>
          match findHotspotDevice bus hotspotInterfaceName devices calls with
          | (wifiDevice, calls) =>
            if wifiDevice = "" then
              { calls := calls, result := .ret (some "no WiFi device found"), waited := 0 }
            else
              let calls := calls ++ [.GetProperty "/org/freedesktop/NetworkManager"
                "org.freedesktop.NetworkManager.ActiveConnections"]
              match bus.ActiveConnections with
              | .error e =>
                { calls := calls,
                  result := .ret (some ("failed to get active connections: " ++ e)),
                  waited := 0 }
              | .ok activeConnections =>
                let calls := deactivateActive bus wifiDevice activeConnections calls
                let calls := calls ++ [.AddMatchSignal]
                match bus.AddMatchSignal with
                | .error e => { calls := calls, result := .panic e, waited := 0 }
                | .ok _ =>
                  let calls := calls ++ [.ActivateConnection newConnPath wifiDevice "/"]
                  match bus.ActivateConnection newConnPath wifiDevice "/" with
                  | .error e =>
                    { calls := calls,
                      result := .ret (some ("failed to activate connection: " ++ e)),
                      waited := 0 }
                  | .ok _ =>
                    let m := monitorHotspotStart bus newConnPath calls
                    match m.result with
                    | .ret _ => { calls := m.calls, result := .ret none, waited := m.waited }
                    | .panic msg => { calls := m.calls, result := .panic msg, waited := m.waited }
                    | .fatal msg => { calls := m.calls, result := .fatal msg, waited := m.waited }

/-! ## The `Scan` handler of `main.go` -/

/-- What a run of the `Scan` handler did: whether it called `WifiScan`, the only place
where it uses the bus connection, and the response or error it returned. -/
structure ScanRun where
  wifiScanCalled : Bool
  response : GoResult (Except String (List WiFiAccessPoint))

/-- The method `wifiServer.Scan` of `main.go`. `MaxTimeSeconds` is the integer field of the
request; `int(...)` of it is the same number. The context built from it is passed to
`WifiScan`, which does not look at it. -/
def wifiServer.Scan (bus : Bus) (mapOrder : ObjectPath → List (freqRange × Int))
    (MaxTimeSeconds : Int) : ScanRun :=
  let maxScanTimeSeconds : Int := if MaxTimeSeconds > 0 then MaxTimeSeconds else 0
  if maxScanTimeSeconds > 60 then
    { wifiScanCalled := false
      response := .ret (.error "Scan MaxTimeSeconds is capped at 60 seconds") }
  else
    match WifiScan bus mapOrder "" with
    | .ret (_, some err) => { wifiScanCalled := true, response := .ret (.error err) }
    | .ret (accessPoints, none) =>
      { wifiScanCalled := true, response := .ret (.ok accessPoints) }
    | .panic m => { wifiScanCalled := true, response := .panic m }
    | .fatal m => { wifiScanCalled := true, response := .fatal m }

/-! ## Example buses -/

/-- A bus on which every call succeeds: devices `/dev/eth0` (type 1) and `/dev/wlan0`
(type 2), access points `/ap/1` and `/ap/2`, and a signal stream reporting activation. -/
def exampleBus : Bus where
  AllDevices := .ok ["/dev/eth0", "/dev/wlan0"]
  DeviceType := fun d => .ok (if d = "/dev/eth0" then 1 else 2)
  Interface := fun d => .ok (if d = "/dev/eth0" then "eth0" else "wlan0")
  RequestScan := fun _ => .ok ()
  GetAccessPoints := fun _ => .ok ["/ap/1", "/ap/2"]
  Ssid := fun ap => .ok (if ap = "/ap/1" then "home" else "guest")
  HwAddress := fun ap => .ok (if ap = "/ap/1" then "00:11:22:33:44:55" else "00:11:22:33:44:66")
  Frequency := fun ap => .ok (if ap = "/ap/1" then 5180 else 5745)
  Strength := fun ap => .ok (if ap = "/ap/1" then 80 else 40)
  WpaFlags := fun _ => .ok 0
  RsnFlags := fun ap => .ok (if ap = "/ap/1" then 0x0188 else 0)
  AddConnection := fun _ => .ok "/settings/1"
  ActivateConnection := fun _ _ _ => .ok "/active/1"
  signals :=
    [(100, ⟨"org.freedesktop.NetworkManager.Connection.Active.StateChanged", "/active/1", [1, 0, 0]⟩),
     (900, ⟨"org.freedesktop.NetworkManager.Connection.Active.StateChanged", "/active/1", [2, 1, 0]⟩)]
  ListConnections := .ok ["/settings/0"]
  GetSettings := fun _ => .ok [("802-11-wireless", [("ssid", .bytes "home")])]
  Delete := fun _ => .ok ()
  ActiveConnections := .ok ["/active/0"]
  ActiveDevices := fun _ => .ok ["/dev/wlan0"]
  Deactivate := fun _ => .ok ()
  AddMatchSignal := .ok ()
  ActiveConnection := fun _ => .ok "/settings/1"

/-- The bus `exampleBus` with a second wireless device `/dev/wlan1` on which `RequestScan`
fails. -/
def busFailingDevice : Bus :=
  { exampleBus with
    AllDevices := .ok ["/dev/wlan1", "/dev/wlan0"]
    RequestScan := fun d => if d = "/dev/wlan1" then .error "scan not allowed" else .ok () }

/-- The bus `exampleBus` on which reading the `Ssid` property of `/ap/1` fails. -/
def busFailingAccessPoint : Bus :=
  { exampleBus with
    Ssid := fun ap => if ap = "/ap/1" then .error "object vanished" else .ok "guest" }

/-! ## Notions used by the statements -/

/-- The profile a run submitted: the argument of its first `AddConnection` call. -/
def submittedProfile (run : Run) : Option Profile :=
  run.calls.findSome? (fun call =>
    match call with
    | .AddConnection settings => some settings
    | _ => none)

/-- The bus `exampleBus` on which no signal ever arrives. -/
def busNoSignal : Bus := { exampleBus with signals := [] }

/-- The signals received in time: those before the first one that arrives 30000 ms or more
after the wait for it began. -/
def receivedInTime (events : List (Nat × Signal)) : List (Nat × Signal) :=
  events.takeWhile (fun e => decide (e.1 < 30000))

/-- Whether `monitorConnectStatus` stops waiting on the signal: a `StateChanged` signal
whose first body value is 2 or 3, or whose body is empty. -/
def endsConnectWait (sig : Signal) : Bool :=
  sig.Name == "org.freedesktop.NetworkManager.Connection.Active.StateChanged" &&
  (match sig.Body with
   | [] => true
   | state :: _ => state == 2 || state == 3)

/-- Whether the signal reports the activation of the submitted profile: a `StateChanged`
signal with state 2 for which reading the `Connection` property of the signal path
succeeds and gives `connPath`. -/
def hotspotMatches (bus : Bus) (connPath : ObjectPath) (sig : Signal) : Bool :=
  sig.Name == "org.freedesktop.NetworkManager.Connection.Active.StateChanged" &&
  (match sig.Body with
   | [] => false
   | state :: _ =>
     state == 2 &&
     (match bus.ActiveConnection sig.Path with
      | .ok connProp => connProp == connPath
      | .error _ => false))

/-- A `StateChanged` signal carries its state values: its body is not empty. -/
def wellFormed (sig : Signal) : Prop :=
  sig.Name = "org.freedesktop.NetworkManager.Connection.Active.StateChanged" → sig.Body ≠ []

/-- Two signals of another interface, each arriving 20 seconds after the wait for it
began. -/
def slowOtherSignals : List (Nat × Signal) :=
  [(20000, ⟨"org.freedesktop.DBus.Properties.PropertiesChanged", "/dev/wlan0", []⟩),
   (20000, ⟨"org.freedesktop.DBus.Properties.PropertiesChanged", "/dev/wlan0", []⟩)]

/-- The bus `exampleBus` whose signal stream is `slowOtherSignals`. -/
def busSlowSignals : Bus := { exampleBus with signals := slowOtherSignals }

/-- Whether the call changes the profiles stored by the bus: `AddConnection` or `Delete`. -/
def isProfileChange : BusCall → Bool
  | .AddConnection _ => true
  | .Delete _ => true
  | _ => false

/-- Whether the call activates or deactivates a connection. -/
def isActivation : BusCall → Bool
  | .ActivateConnection _ _ _ => true
  | .Deactivate _ => true
  | _ => false

/-- Whether the stored profile `c` can be read and its `802-11-wireless` group holds the
SSID bytes `hotspotSSID`. -/
def matchesSSID (bus : Bus) (hotspotSSID : String) (c : ObjectPath) : Bool :=
  match bus.GetSettings c with
  | .ok settingsInfo => ssidOfSettings settingsInfo == some hotspotSSID
  | .error _ => false

/-- The bus `exampleBus` without a wireless device; its stored profile `/settings/0` has
the SSID `home`. -/
def busNoWifi : Bus :=
  { exampleBus with
    AllDevices := .ok ["/dev/eth0"] }

/-! ## The profiles stored by the bus -/

/-- The profiles the bus stores, each under its path. -/
abbrev Store := List (ObjectPath × Profile)

/-- The effect of one call on the stored profiles, given the answers of `bus`: a `Delete`
that succeeds removes the profile of that path, an `AddConnection` that succeeds stores the
submitted profile under the returned path, any other call changes nothing. -/
def storeStep (bus : Bus) (store : Store) : BusCall → Store
  | .Delete c =>
    match bus.Delete c with
    | .ok _ => store.filter (fun e => e.1 != c)
    | .error _ => store
  | .AddConnection settings =>
    match bus.AddConnection settings with
    | .ok path => store ++ [(path, settings)]
    | .error _ => store
  | _ => store

/-- The stored profiles after the calls of a run. -/
def storeAfter (bus : Bus) (store : Store) (calls : List BusCall) : Store :=
  calls.foldl (storeStep bus) store

/-- The bus answers from the stored profiles: `ListConnections` gives their paths,
`GetSettings` the stored settings, and `Delete` on a stored profile succeeds. -/
def reflects (bus : Bus) (store : Store) : Prop :=
  bus.ListConnections = .ok (store.map Prod.fst) ∧
  ∀ e ∈ store, bus.GetSettings e.1 = .ok e.2 ∧ bus.Delete e.1 = .ok ()

/-- Whether a stored profile has the SSID `ssid`. -/
def hasSSID (ssid : String) (e : ObjectPath × Profile) : Bool :=
  ssidOfSettings e.2 == some ssid

/-- A bus storing two profiles with the SSID `hot`, on which `Delete` fails. -/
def busFailingDelete : Bus :=
  { exampleBus with
    ListConnections := .ok ["/settings/a", "/settings/b"]
    GetSettings := fun _ => .ok [("802-11-wireless", [("ssid", .bytes "hot")])]
    Delete := fun _ => .error "permission denied" }

/-- The profiles stored before the first run on `exampleBus`. -/
def storeBefore : Store := [("/settings/0", [("802-11-wireless", [("ssid", .bytes "home")])])]

/-- The bus of a second run after `StartHotspot exampleBus "home" "secret" ""`: it stores
the profile of the first run under `/settings/1` and answers `AddConnection` with
`/settings/2`. -/
def busSecondRun : Bus :=
  { exampleBus with
    ListConnections := .ok ["/settings/1"]
    GetSettings := fun _ => .ok (hotspotConfig "home" "secret" "")
    AddConnection := fun _ => .ok "/settings/2" }

/-! ## Theorems: the radio classifier -/

theorem or_eq_zero_iff_both (a b : Nat) : a ||| b = 0 ↔ a = 0 ∧ b = 0 := by
  constructor
  · intro h
    have key : ∀ i, (a.testBit i || b.testBit i) = false := by
      intro i
      rw [← Nat.testBit_or, h, Nat.zero_testBit]
    constructor
    · apply Nat.eq_of_testBit_eq
      intro i
      have := key i
      simp only [Bool.or_eq_false_iff] at this
      simp [this.1]
    · apply Nat.eq_of_testBit_eq
      intro i
      have := key i
      simp only [Bool.or_eq_false_iff] at this
      simp [this.2]
  · rintro ⟨rfl, rfl⟩
    simp

theorem and_or_eq_zero_iff (x a b : Nat) : x &&& (a ||| b) = 0 ↔ x &&& a = 0 ∧ x &&& b = 0 := by
  rw [Nat.and_or_distrib_left, or_eq_zero_iff_both]

theorem wepMask_eq_zero_iff (x : Nat) :
    x &&& (NM_802_11_AP_SEC_PAIR_WEP40 ||| NM_802_11_AP_SEC_PAIR_WEP104 |||
      NM_802_11_AP_SEC_GROUP_WEP40 ||| NM_802_11_AP_SEC_GROUP_WEP104) = 0 ↔
    ∀ b ∈ wepBits, x &&& b = 0 := by
  simp only [and_or_eq_zero_iff, wepBits, List.mem_cons, List.mem_singleton, forall_eq_or_imp,
    forall_eq, NM_802_11_AP_SEC_PAIR_WEP40, NM_802_11_AP_SEC_PAIR_WEP104,
    NM_802_11_AP_SEC_GROUP_WEP40, NM_802_11_AP_SEC_GROUP_WEP104, List.not_mem_nil,
    false_imp_iff, implies_true, and_true, and_assoc]

theorem ccmpMask_ne_zero_iff (x : Nat) :
    x &&& (NM_802_11_AP_SEC_PAIR_CCMP ||| NM_802_11_AP_SEC_GROUP_CCMP) ≠ 0 ↔
    hasCCMP x = true := by
  rw [Ne, and_or_eq_zero_iff]
  simp only [hasCCMP, hasFlag, NM_802_11_AP_SEC_PAIR_CCMP, NM_802_11_AP_SEC_GROUP_CCMP,
    Bool.or_eq_true, bne_iff_ne, ne_eq]
  tauto

/-- C1: `rssiToRating` is excellent from -50 up, good on -60..-51, fair on -70..-61, poor
on -80..-71 and none below -80; the five values the specification lists follow. -/
theorem rssiToRating_thresholds (rssi : Int) :
    (rssi ≥ -50 → rssiToRating rssi = WIFI_SIGNAL_STRENGTH_EXCELLENT) ∧
    (-60 ≤ rssi → rssi ≤ -51 → rssiToRating rssi = WIFI_SIGNAL_STRENGTH_GOOD) ∧
    (-70 ≤ rssi → rssi ≤ -61 → rssiToRating rssi = WIFI_SIGNAL_STRENGTH_FAIR) ∧
    (-80 ≤ rssi → rssi ≤ -71 → rssiToRating rssi = WIFI_SIGNAL_STRENGTH_POOR) ∧
    (rssi < -80 → rssiToRating rssi = WIFI_SIGNAL_STRENGTH_NONE) ∧
    rssiToRating (-45) = WIFI_SIGNAL_STRENGTH_EXCELLENT ∧
    rssiToRating (-65) = WIFI_SIGNAL_STRENGTH_FAIR ∧
    rssiToRating (-95) = WIFI_SIGNAL_STRENGTH_NONE ∧
    rssiToRating (-50) = WIFI_SIGNAL_STRENGTH_EXCELLENT ∧
    rssiToRating (-51) = WIFI_SIGNAL_STRENGTH_GOOD := by
  refine ⟨?_, ?_, ?_, ?_, ?_, by decide, by decide, by decide, by decide, by decide⟩
  · intro h
    simp [rssiToRating, h]
  · intro h1 h2
    have h0 : ¬ rssi ≥ -50 := by omega
    simp [rssiToRating, h0, h1]
  · intro h1 h2
    have h0 : ¬ rssi ≥ -50 := by omega
    have h3 : ¬ rssi ≥ -60 := by omega
    simp [rssiToRating, h0, h3, h1]
  · intro h1 h2
    have h0 : ¬ rssi ≥ -50 := by omega
    have h3 : ¬ rssi ≥ -60 := by omega
    have h4 : ¬ rssi ≥ -70 := by omega
    simp [rssiToRating, h0, h3, h4, h1]
  · intro h
    have h0 : ¬ rssi ≥ -50 := by omega
    have h3 : ¬ rssi ≥ -60 := by omega
    have h4 : ¬ rssi ≥ -70 := by omega
    have h5 : ¬ rssi ≥ -80 := by omega
    simp [rssiToRating, h0, h3, h4, h5]

theorem rssiToRating_thresholds_witness :
    (-60 : Int) ≤ -55 ∧ (-55 : Int) ≤ -51 ∧ rssiToRating (-55) = WIFI_SIGNAL_STRENGTH_GOOD :=
  ⟨by decide, by decide, (rssiToRating_thresholds (-55)).2.1 (by decide) (by decide)⟩

/-- C2: when the masks are not both zero and neither has a WEP bit, `determineSecurity`
returns the first category of the precedence order that applies (WPA3-Enterprise,
WPA3-Personal, WPA2-Enterprise, WPA2-Personal, WPA-Enterprise, WPA-Personal), unknown when
none does; and `determineSecurity 0 0` is open. -/
theorem determineSecurity_precedence (wpaFlags rsnFlags : Nat)
    (hne : ¬ (wpaFlags = 0 ∧ rsnFlags = 0))
    (hw : ∀ b ∈ wepBits, wpaFlags &&& b = 0)
    (_hr : ∀ b ∈ wepBits, rsnFlags &&& b = 0) :
    determineSecurity wpaFlags rsnFlags = firstApplicable wpaFlags rsnFlags ∧
    determineSecurity 0 0 = WIFI_SECURITY_OPEN := by
  refine ⟨?_, by decide⟩
  have hwep := (wepMask_eq_zero_iff wpaFlags).2 hw
  have hc := ccmpMask_ne_zero_iff rsnFlags
  unfold determineSecurity
  rw [if_neg (by simpa [NM_802_11_AP_SEC_NONE] using hne), if_neg (by simp [hwep])]
  simp only [hc, firstApplicable, securityPrecedence, List.find?_cons, hasFlag,
    NM_802_11_AP_SEC_KEY_MGMT_802_1X, NM_802_11_AP_SEC_KEY_MGMT_PSK, List.find?_nil,
    ← bne_iff_ne]
  generalize (rsnFlags &&& 0x0200 != 0) = r1x
  generalize (rsnFlags &&& 0x0100 != 0) = rpsk
  generalize hasCCMP rsnFlags = rccmp
  generalize (wpaFlags &&& 0x0200 != 0) = w1x
  generalize (wpaFlags &&& 0x0100 != 0) = wpsk
  cases r1x <;> cases rpsk <;> cases rccmp <;> cases w1x <;> cases wpsk <;> rfl

theorem determineSecurity_precedence_witness :
    determineSecurity 0x0100 0x0188 = firstApplicable 0x0100 0x0188 ∧
    determineSecurity 0 0 = WIFI_SECURITY_OPEN :=
  determineSecurity_precedence 0x0100 0x0188 (by decide) (by decide) (by decide)

/-- C3, counterexample: a WEP bit that is only in `rsnFlags` (with `wpaFlags = 0` and no
key-management bit in `rsnFlags`) is not classified as WEP. -/
theorem determineSecurity_rsn_wep_not_wep :
    (0x0001 ∈ wepBits ∧ (0x0001 : Nat) &&& 0x0001 ≠ 0) ∧
    (0x0001 : Nat) &&& 0x0100 = 0 ∧ (0x0001 : Nat) &&& 0x0200 = 0 ∧
    determineSecurity 0 0x0001 = WIFI_SECURITY_UNKNOWN ∧
    determineSecurity 0 0x0001 ≠ WIFI_SECURITY_WEP := by
  decide

/-- C3, amended: when `wpaFlags` has a pairwise or group WEP bit and `rsnFlags` has neither
the PSK nor the 802.1X bit, `determineSecurity` returns WEP. -/
theorem determineSecurity_wpa_wep (wpaFlags rsnFlags : Nat)
    (hw : ∃ b ∈ wepBits, wpaFlags &&& b ≠ 0)
    (_hpsk : rsnFlags &&& 0x0100 = 0) (_hx : rsnFlags &&& 0x0200 = 0) :
    determineSecurity wpaFlags rsnFlags = WIFI_SECURITY_WEP := by
  have hwep : wpaFlags &&& (NM_802_11_AP_SEC_PAIR_WEP40 ||| NM_802_11_AP_SEC_PAIR_WEP104 |||
      NM_802_11_AP_SEC_GROUP_WEP40 ||| NM_802_11_AP_SEC_GROUP_WEP104) ≠ 0 := by
    intro h0
    obtain ⟨b, hb, hne⟩ := hw
    exact hne ((wepMask_eq_zero_iff wpaFlags).1 h0 b hb)
  have hnz : wpaFlags ≠ 0 := by
    rintro rfl
    simp at hwep
  unfold determineSecurity
  rw [if_neg (by simp [NM_802_11_AP_SEC_NONE, hnz]), if_pos hwep]

theorem determineSecurity_wpa_wep_witness :
    determineSecurity 0x0002 0x0008 = WIFI_SECURITY_WEP :=
  determineSecurity_wpa_wep 0x0002 0x0008 ⟨0x0002, by decide, by decide⟩ (by decide) (by decide)

/-! ## Theorems: the channel lookup -/

theorem holds_iff (r : freqRange) (freq : Int) :
    r.holds freq = true ↔ r.low ≤ freq ∧ freq ≤ r.high := by
  simp [freqRange.holds]

theorem rangeLoop_eq_zero (freq : Int) (o : List (freqRange × Int))
    (h : ∀ e ∈ o, e.1.holds freq = false) : rangeLoop freq o = 0 := by
  induction o with
  | nil => rfl
  | cons e rest ih =>
    obtain ⟨r, c⟩ := e
    have hr : r.holds freq = false := h (r, c) (List.mem_cons_self _ _)
    simp only [rangeLoop, hr, Bool.false_eq_true, if_false]
    exact ih (fun e he => h e (List.mem_cons_of_mem _ he))

theorem rangeLoop_mem (freq : Int) (o : List (freqRange × Int))
    (h : rangeLoop freq o ≠ 0) :
    ∃ e ∈ o, e.1.holds freq = true ∧ e.2 = rangeLoop freq o := by
  induction o with
  | nil => exact absurd rfl h
  | cons e rest ih =>
    obtain ⟨r, c⟩ := e
    by_cases hr : r.holds freq = true
    · refine ⟨(r, c), List.mem_cons_self _ _, hr, ?_⟩
      simp [rangeLoop, hr]
    · have hstep : rangeLoop freq ((r, c) :: rest) = rangeLoop freq rest := by
        simp [rangeLoop, hr]
      rw [hstep] at h ⊢
      obtain ⟨e, he, hh, hc⟩ := ih h
      exact ⟨e, List.mem_cons_of_mem _ he, hh, hc⟩

theorem rangeLoop_eq_of_all (freq c : Int) (o : List (freqRange × Int))
    (hex : ∃ e ∈ o, e.1.holds freq = true)
    (hall : ∀ e ∈ o, e.1.holds freq = true → e.2 = c) : rangeLoop freq o = c := by
  induction o with
  | nil =>
    obtain ⟨e, he, _⟩ := hex
    cases he
  | cons e rest ih =>
    obtain ⟨r, k⟩ := e
    by_cases hr : r.holds freq = true
    · have := hall (r, k) (List.mem_cons_self _ _) hr
      simp only [rangeLoop, hr, if_true]
      exact this
    · simp only [rangeLoop, hr, Bool.false_eq_true, if_false]
      apply ih
      · obtain ⟨e, he, hh⟩ := hex
        rcases List.mem_cons.1 he with rfl | he
        · exact absurd hh hr
        · exact ⟨e, he, hh⟩
      · exact fun e he => hall e (List.mem_cons_of_mem _ he)

/-- Whatever the visiting order, a frequency all of whose matching entries carry the
channel `c`, and which has a matching entry, is mapped to `c`. -/
theorem frequencyToChannel_of_all (order : List (freqRange × Int))
    (hperm : order.Perm freqRangeToChannel) (freq c : Int)
    (hex : ∃ e ∈ freqRangeToChannel, e.1.holds freq = true)
    (hall : ∀ e ∈ freqRangeToChannel, e.1.holds freq = true → e.2 = c) :
    frequencyToChannel order freq = c := by
  apply rangeLoop_eq_of_all
  · obtain ⟨e, he, hh⟩ := hex
    exact ⟨e, hperm.mem_iff.2 he, hh⟩
  · exact fun e he => hall e (hperm.mem_iff.1 he)

/-- The keys of the map literal are pairwise different, as Go requires. -/
theorem freqRangeToChannel_keys_nodup : (freqRangeToChannel.map Prod.fst).Nodup := by
  decide

set_option maxRecDepth 100000 in
theorem fiveGHz_centres_unique :
    ∀ c ∈ fiveGHzChannels,
      (∃ e ∈ freqRangeToChannel, e.1.holds (5000 + 5 * c) = true) ∧
      ∀ e ∈ freqRangeToChannel, e.1.holds (5000 + 5 * c) = true → e.2 = c := by
  decide

theorem table_lows : ∀ e ∈ freqRangeToChannel, 2401 ≤ e.1.low := by
  decide

theorem table_highs : ∀ e ∈ freqRangeToChannel, e.1.high ≤ 7125 := by
  decide

theorem table_5730 :
    (∃ e ∈ freqRangeToChannel, e.1.holds 5730 = true) ∧
    ∀ e ∈ freqRangeToChannel, e.1.holds 5730 = true → e.2 = 144 := by
  decide

/-- C4: `frequencyToChannel 2437` is not 6 on every execution. Visiting the map in the
order it is written returns 4, the first of the five ranges that hold 2437; an order that
visits the range of channel 6 first returns 6. -/
theorem frequencyToChannel_2437_depends_on_order :
    frequencyToChannel freqRangeToChannel 2437 = 4 ∧
    ∃ order : List (freqRange × Int), order.Perm freqRangeToChannel ∧
      frequencyToChannel order 2437 = 6 := by
  refine ⟨by decide, entry 2426 2448 6 :: freqRangeToChannel.erase (entry 2426 2448 6),
    (List.perm_cons_erase (show entry 2426 2448 6 ∈ freqRangeToChannel by decide)).symm, ?_⟩
  simp [frequencyToChannel, rangeLoop, freqRange.holds]

/-- C5: in every visiting order, the centre frequency `5000 + 5 * c` of each 5 GHz channel
`c` of the table is mapped to `c`; the channels are those of the table's 5 GHz entries, and
5180 MHz is mapped to 36. -/
theorem frequencyToChannel_fiveGHz_centre (order : List (freqRange × Int))
    (hperm : order.Perm freqRangeToChannel) :
    (∀ c ∈ fiveGHzChannels, frequencyToChannel order (5000 + 5 * c) = c) ∧
    fiveGHzChannels = ((freqRangeToChannel.drop 14).take 37).map Prod.snd ∧
    frequencyToChannel order 5180 = 36 := by
  have hall : ∀ c ∈ fiveGHzChannels, frequencyToChannel order (5000 + 5 * c) = c := by
    intro c hc
    have h := fiveGHz_centres_unique c hc
    exact frequencyToChannel_of_all order hperm _ c h.1 h.2
  exact ⟨hall, by decide, hall 36 (by decide)⟩

theorem frequencyToChannel_fiveGHz_centre_witness :
    (∀ c ∈ fiveGHzChannels, frequencyToChannel freqRangeToChannel.reverse (5000 + 5 * c) = c) ∧
    fiveGHzChannels = ((freqRangeToChannel.drop 14).take 37).map Prod.snd ∧
    frequencyToChannel freqRangeToChannel.reverse 5180 = 36 :=
  frequencyToChannel_fiveGHz_centre freqRangeToChannel.reverse (List.reverse_perm _)

/-- C6: in every visiting order, a frequency that lies in no range of the table is mapped
to 0 (so is every frequency below 2401 or above 7125, and 1000), and a non-zero result is
the channel of a table range `low ≤ freq ≤ high` that holds the frequency. -/
theorem frequencyToChannel_no_match (order : List (freqRange × Int))
    (hperm : order.Perm freqRangeToChannel) (freq : Int) :
    ((∀ e ∈ freqRangeToChannel, ¬ (e.1.low ≤ freq ∧ freq ≤ e.1.high)) →
      frequencyToChannel order freq = 0) ∧
    (freq < 2401 → frequencyToChannel order freq = 0) ∧
    (freq > 7125 → frequencyToChannel order freq = 0) ∧
    frequencyToChannel order 1000 = 0 ∧
    (frequencyToChannel order freq ≠ 0 →
      ∃ e ∈ freqRangeToChannel, e.1.low ≤ freq ∧ freq ≤ e.1.high ∧
        e.2 = frequencyToChannel order freq) := by
  have hnone : ∀ f : Int, (∀ e ∈ freqRangeToChannel, ¬ (e.1.low ≤ f ∧ f ≤ e.1.high)) →
      frequencyToChannel order f = 0 := by
    intro f h
    apply rangeLoop_eq_zero
    intro e he
    have := h e (hperm.mem_iff.1 he)
    rw [← holds_iff] at this
    simpa using this
  have hlow : ∀ f : Int, f < 2401 → frequencyToChannel order f = 0 := by
    intro f hf
    apply hnone
    intro e he hin
    have := table_lows e he
    omega
  refine ⟨hnone freq, hlow freq, ?_, hlow 1000 (by decide), ?_⟩
  · intro hf
    apply hnone
    intro e he hin
    have := table_highs e he
    omega
  · intro hne
    obtain ⟨e, he, hh, hc⟩ := rangeLoop_mem freq order hne
    have hin := (holds_iff e.1 freq).1 hh
    exact ⟨e, hperm.mem_iff.1 he, hin.1, hin.2, hc⟩

theorem frequencyToChannel_no_match_witness :
    frequencyToChannel freqRangeToChannel.reverse 7126 = 0 ∧
    frequencyToChannel freqRangeToChannel.reverse 5732 = 0 :=
  ⟨(frequencyToChannel_no_match freqRangeToChannel.reverse (List.reverse_perm _) 7126).2.2.1
      (by decide),
    (frequencyToChannel_no_match freqRangeToChannel.reverse (List.reverse_perm _) 5732).1
      (by decide)⟩

/-- C7, counterexample: the range of channel 144, `{5710, 5730}`, holds its own upper
bound 5730 although `5730 < 5730` fails, and 5730 MHz is mapped to 144, not to 0. -/
theorem frequencyToChannel_5730_is_144 :
    entry 5710 5730 144 ∈ freqRangeToChannel ∧
    freqRange.holds ⟨5710, 5730⟩ 5730 = true ∧
    ¬ (freqRange.holds ⟨5710, 5730⟩ 5730 = true ↔ (5710 : Int) ≤ 5730 ∧ (5730 : Int) < 5730) ∧
    frequencyToChannel freqRangeToChannel 5730 = 144 ∧
    frequencyToChannel freqRangeToChannel 5730 ≠ 0 := by
  decide

/-- C7, amended: the ranges are closed, a range matches `freq` exactly when
`low ≤ freq ≤ high`, so a frequency equal to a range's upper bound is matched by that
range; 5730 MHz is mapped to 144 in every visiting order. -/
theorem frequencyToChannel_ranges_closed (order : List (freqRange × Int))
    (hperm : order.Perm freqRangeToChannel) (r : freqRange) (c freq : Int) :
    (frequencyToChannel [(r, c)] freq = (if r.low ≤ freq ∧ freq ≤ r.high then c else 0)) ∧
    (r.holds freq = true ↔ r.low ≤ freq ∧ freq ≤ r.high) ∧
    r.holds r.high = decide (r.low ≤ r.high) ∧
    frequencyToChannel order 5730 = 144 := by
  refine ⟨?_, holds_iff r freq, by simp [freqRange.holds], ?_⟩
  · by_cases h : r.low ≤ freq ∧ freq ≤ r.high
    · simp [frequencyToChannel, rangeLoop, (holds_iff r freq).2 h, h]
    · have hf : r.holds freq = false := by
        rw [← Bool.not_eq_true, holds_iff]; exact h
      simp [frequencyToChannel, rangeLoop, hf, h]
  · exact frequencyToChannel_of_all order hperm 5730 144 table_5730.1 table_5730.2

theorem frequencyToChannel_ranges_closed_witness :
    frequencyToChannel freqRangeToChannel.reverse 5730 = 144 :=
  (frequencyToChannel_ranges_closed freqRangeToChannel.reverse (List.reverse_perm _)
    ⟨5710, 5730⟩ 144 5730).2.2.2

/-! ## Theorems: the connect and scan workflows -/

theorem findWifiDevice_calls (bus : Bus) (devices : List ObjectPath) (calls : List BusCall) :
    ∃ more, (findWifiDevice bus devices calls).2 = calls ++ more := by
  induction devices generalizing calls with
  | nil => exact ⟨[], by simp [findWifiDevice]⟩
  | cons d rest ih =>
    simp only [findWifiDevice]
    cases bus.DeviceType d with
    | error e =>
      obtain ⟨more, h⟩ := ih (calls ++ [.GetProperty d "org.freedesktop.NetworkManager.Device.DeviceType"])
      exact ⟨BusCall.GetProperty d "org.freedesktop.NetworkManager.Device.DeviceType" :: more, by simp [h]⟩
    | ok t =>
      by_cases ht : t = 2
      · exact ⟨[BusCall.GetProperty d "org.freedesktop.NetworkManager.Device.DeviceType"], by simp [ht]⟩
      · obtain ⟨more, h⟩ := ih (calls ++ [.GetProperty d "org.freedesktop.NetworkManager.Device.DeviceType"])
        exact ⟨BusCall.GetProperty d "org.freedesktop.NetworkManager.Device.DeviceType" :: more, by simp [ht, h]⟩

/-- C8: for every bus and every SSID, `ConnectWiFi` with the secret `IsOpen = false`
returns the validation error and has made no call on the bus connection (no
`AddConnection`, no property read, no `ActivateConnection`, no signal registration);
with `IsOpen = true` its first call is `AddConnection`. -/
theorem ConnectWiFi_IsOpen_false_no_bus_call (bus : Bus) (ssid : String) :
    ConnectWiFi bus ⟨ssid, some (.IsOpen false)⟩ =
      { calls := []
        result := .ret (some
          "secret oneOf 'IsOpen' must be true, as any other condition must be specified instead")
        waited := 0 } ∧
    (ConnectWiFi bus ⟨ssid, some (.IsOpen true)⟩).calls.head? =
      some (.AddConnection
        [("802-11-wireless", [("ssid", .bytes ssid), ("mode", .str "infrastructure")]),
         ("connection", [("type", .str "802-11-wireless"), ("id", .str ssid)]),
         ("802-11-wireless-security", [("key-mgmt", .str "none")])]) := by
  refine ⟨rfl, ?_⟩
  have hset : secretSettings
      [("802-11-wireless", [("ssid", .bytes ssid), ("mode", .str "infrastructure")]),
       ("connection", [("type", .str "802-11-wireless"), ("id", .str ssid)])]
      (some (.IsOpen true)) = .ok
      [("802-11-wireless", [("ssid", .bytes ssid), ("mode", .str "infrastructure")]),
       ("connection", [("type", .str "802-11-wireless"), ("id", .str ssid)]),
       ("802-11-wireless-security", [("key-mgmt", .str "none")])] := by
    simp [secretSettings, mapSet]
  simp only [ConnectWiFi, hset]
  cases bus.AddConnection _ with
  | error e => rfl
  | ok newConnPath =>
    cases hd : bus.AllDevices with
    | error e => rfl
    | ok devices =>
      obtain ⟨more, hmore⟩ := findWifiDevice_calls bus devices
        [.AddConnection
          [("802-11-wireless", [("ssid", .bytes ssid), ("mode", .str "infrastructure")]),
           ("connection", [("type", .str "802-11-wireless"), ("id", .str ssid)]),
           ("802-11-wireless-security", [("key-mgmt", .str "none")])],
         .GetProperty "/org/freedesktop/NetworkManager"
           "org.freedesktop.NetworkManager.AllDevices"]
      simp only [List.cons_append, List.nil_append] at hmore ⊢
      split
      · simp [hmore]
      · split <;> simp [hmore, monitorConnectStatus]

theorem scanAccessPoint_of_readable (bus : Bus) (order : List (freqRange × Int))
    (ap : ObjectPath) (h : apReadable bus ap = true) :
    ∃ a, scanAccessPoint bus order ap = .ret a ∧ classifyAccessPoint bus order ap = some a := by
  unfold apReadable at h
  cases h1 : bus.Ssid ap <;> cases h2 : bus.HwAddress ap <;> cases h3 : bus.Frequency ap <;>
    cases h4 : bus.Strength ap <;> cases h5 : bus.WpaFlags ap <;>
    cases h6 : bus.RsnFlags ap <;>
    simp [h1, h2, h3, h4, h5, h6, Except.toBool] at h
  rename_i ssid bsid f s w r
  refine ⟨{ SSID := ssid, BSSID := bsid, RSSI := int32OfUint8 s, Frequency := int32OfUint32 f,
            Channel := frequencyToChannel order (int32OfUint32 f),
            SignalRating := rssiToRating (int32OfUint8 s),
            SecurityType := determineSecurity w r, EapConfig := none }, ?_, ?_⟩
  · simp [scanAccessPoint, h1, h2, h3, h4, h5, h6, valueOrNil, assertType]
  · simp [classifyAccessPoint, h1, h2, h3, h4, h5, h6]

theorem scanAccessPoints_of_readable (bus : Bus)
    (mapOrder : ObjectPath → List (freqRange × Int))
    (hap : ∀ ap, apReadable bus ap = true) (aps : List ObjectPath)
    (accessPoints : List WiFiAccessPoint) :
    scanAccessPoints bus mapOrder aps accessPoints =
      .ret (accessPoints ++ aps.filterMap (fun ap => classifyAccessPoint bus (mapOrder ap) ap)) := by
  induction aps generalizing accessPoints with
  | nil => simp [scanAccessPoints]
  | cons ap rest ih =>
    obtain ⟨a, hscan, hclass⟩ := scanAccessPoint_of_readable bus (mapOrder ap) ap (hap ap)
    simp [scanAccessPoints, hscan, ih, List.filterMap_cons, hclass]

theorem scanDevices_of_readable (bus : Bus) (mapOrder : ObjectPath → List (freqRange × Int))
    (networkInterfaceName : String) (hap : ∀ ap, apReadable bus ap = true)
    (devices : List ObjectPath) (accessPoints : List WiFiAccessPoint) :
    scanDevices bus mapOrder networkInterfaceName devices accessPoints =
      .ret (accessPoints ++ WifiScanSpec bus mapOrder networkInterfaceName devices) := by
  induction devices generalizing accessPoints with
  | nil => simp [scanDevices, WifiScanSpec]
  | cons d rest ih =>
    have hspec : WifiScanSpec bus mapOrder networkInterfaceName (d :: rest) =
        (scannedAccessPoints bus networkInterfaceName d).filterMap
          (fun ap => classifyAccessPoint bus (mapOrder ap) ap) ++
        WifiScanSpec bus mapOrder networkInterfaceName rest := by
      simp [WifiScanSpec]
    rw [hspec]
    unfold scanDevices scannedAccessPoints
    cases bus.DeviceType d with
    | error e => simp [ih]
    | ok deviceType =>
      cases bus.Interface d with
      | error e => simp [ih]
      | ok deviceInterfaceName =>
        by_cases hf : networkInterfaceName ≠ "" ∧ deviceInterfaceName ≠ networkInterfaceName
        · have hn : ¬ (networkInterfaceName = "" ∨ deviceInterfaceName = networkInterfaceName) := by
            tauto
          simp [hf, hn, ih]
        · have hn : networkInterfaceName = "" ∨ deviceInterfaceName = networkInterfaceName := by
            tauto
          by_cases ht : deviceType = 2
          · cases bus.RequestScan d with
            | error e => simp [hf, hn, ht, ih]
            | ok u =>
              cases bus.GetAccessPoints d with
              | error e => simp [hf, hn, ht, ih]
              | ok aps =>
                simp [hf, hn, ht, ih, scanAccessPoints_of_readable bus mapOrder hap]
          · simp [hf, hn, ht, ih]

/-- C9: when the device list can be read and every access-point property read succeeds,
`WifiScan` returns a nil error and exactly the access points of the specification: in
device order, those of the devices that are wireless, match the interface filter when one
is given, and whose type read, interface read, `RequestScan` and `GetAccessPoints` all
succeed. The access points of a list of devices are those of its parts, one after the
other, and a device on which one of the four calls fails contributes none. -/
theorem WifiScan_skips_failing_devices (bus : Bus)
    (mapOrder : ObjectPath → List (freqRange × Int)) (networkInterfaceName : String)
    (devices : List ObjectPath) (hdev : bus.AllDevices = .ok devices)
    (hap : ∀ ap, apReadable bus ap = true) :
    WifiScan bus mapOrder networkInterfaceName =
      .ret (WifiScanSpec bus mapOrder networkInterfaceName devices, none) ∧
    (∀ ds1 ds2, WifiScanSpec bus mapOrder networkInterfaceName (ds1 ++ ds2) =
      WifiScanSpec bus mapOrder networkInterfaceName ds1 ++
      WifiScanSpec bus mapOrder networkInterfaceName ds2) ∧
    (∀ d, ((bus.DeviceType d).toBool = false ∨ (bus.Interface d).toBool = false ∨
        (bus.RequestScan d).toBool = false ∨ (bus.GetAccessPoints d).toBool = false) →
      WifiScanSpec bus mapOrder networkInterfaceName [d] = []) := by
  refine ⟨?_, ?_, ?_⟩
  · simp [WifiScan, hdev, scanDevices_of_readable bus mapOrder networkInterfaceName hap]
  · intro ds1 ds2
    simp [WifiScanSpec]
  · intro d hd
    have : scannedAccessPoints bus networkInterfaceName d = [] := by
      unfold scannedAccessPoints
      cases h1 : bus.DeviceType d <;> cases h2 : bus.Interface d <;>
        cases h3 : bus.RequestScan d <;> cases h4 : bus.GetAccessPoints d <;>
        simp [h1, h2, h3, h4, Except.toBool] at hd ⊢
    simp [WifiScanSpec, this]

theorem exampleBus_readable (ap : ObjectPath) : apReadable busFailingDevice ap = true := by
  simp [apReadable, busFailingDevice, exampleBus, Except.toBool]

theorem WifiScan_skips_failing_devices_witness :
    WifiScan busFailingDevice (fun _ => freqRangeToChannel) "" =
      .ret (WifiScanSpec busFailingDevice (fun _ => freqRangeToChannel) ""
        ["/dev/wlan1", "/dev/wlan0"], none) ∧
    WifiScanSpec busFailingDevice (fun _ => freqRangeToChannel) ""
        ["/dev/wlan1", "/dev/wlan0"] =
      [ { SSID := "home", BSSID := "00:11:22:33:44:55", RSSI := 80, Frequency := 5180,
          Channel := 36, SignalRating := WIFI_SIGNAL_STRENGTH_EXCELLENT,
          SecurityType := WIFI_SECURITY_WPA3_PSK, EapConfig := none },
        { SSID := "guest", BSSID := "00:11:22:33:44:66", RSSI := 40, Frequency := 5745,
          Channel := 149, SignalRating := WIFI_SIGNAL_STRENGTH_EXCELLENT,
          SecurityType := WIFI_SECURITY_OPEN, EapConfig := none } ] :=
  ⟨(WifiScan_skips_failing_devices busFailingDevice (fun _ => freqRangeToChannel) ""
      ["/dev/wlan1", "/dev/wlan0"] rfl exampleBus_readable).1, by decide⟩

/-- C10: on a bus where reading the `Ssid` property of one access point fails, `WifiScan`
does not skip that access point: the type assertion on the nil value panics and no access
point is returned, while the specification returns the other access point. -/
theorem WifiScan_panics_on_failing_access_point :
    busFailingAccessPoint.AllDevices = .ok ["/dev/eth0", "/dev/wlan0"] ∧
    WifiScan busFailingAccessPoint (fun _ => freqRangeToChannel) "" =
      .panic "interface conversion: interface is nil" ∧
    WifiScanSpec busFailingAccessPoint (fun _ => freqRangeToChannel) ""
        ["/dev/eth0", "/dev/wlan0"] =
      [ { SSID := "guest", BSSID := "00:11:22:33:44:66", RSSI := 40, Frequency := 5745,
          Channel := 149, SignalRating := WIFI_SIGNAL_STRENGTH_EXCELLENT,
          SecurityType := WIFI_SECURITY_OPEN, EapConfig := none } ] :=
  ⟨rfl, by decide, by decide⟩

/-! ## Theorems: profiles, the scan handler and signal strength -/

theorem rssiToRating_of_nonneg (rssi : Int) (h : 0 ≤ rssi) :
    rssiToRating rssi = WIFI_SIGNAL_STRENGTH_EXCELLENT := by
  have : rssi ≥ -50 := by omega
  simp [rssiToRating, this]

theorem scanAccessPoint_strength (bus : Bus) (order : List (freqRange × Int))
    (ap : ObjectPath) (a : WiFiAccessPoint) (h : scanAccessPoint bus order ap = .ret a) :
    ∃ s, bus.Strength ap = .ok s ∧ a.RSSI = int32OfUint8 s ∧
      a.SignalRating = rssiToRating (int32OfUint8 s) := by
  cases h1 : bus.Ssid ap <;> cases h2 : bus.HwAddress ap <;> cases h3 : bus.Frequency ap <;>
    cases h4 : bus.Strength ap <;> cases h5 : bus.WpaFlags ap <;>
    cases h6 : bus.RsnFlags ap <;>
    simp [scanAccessPoint, h1, h2, h3, h4, h5, h6, valueOrNil, assertType] at h
  rename_i ssid bsid f s w r
  exact ⟨s, rfl, by rw [← h], by rw [← h]⟩

theorem int32OfUint8_range (s : Nat) : 0 ≤ int32OfUint8 s ∧ int32OfUint8 s ≤ 255 := by
  unfold int32OfUint8
  constructor
  · exact Int.ofNat_nonneg _
  · have : s % 2 ^ 8 < 2 ^ 8 := Nat.mod_lt _ (by norm_num)
    omega

theorem scanAccessPoints_all (P : WiFiAccessPoint → Prop) (bus : Bus)
    (mapOrder : ObjectPath → List (freqRange × Int))
    (hP : ∀ ap a, scanAccessPoint bus (mapOrder ap) ap = .ret a → P a)
    (aps : List ObjectPath) (acc out : List WiFiAccessPoint) (hacc : ∀ a ∈ acc, P a)
    (h : scanAccessPoints bus mapOrder aps acc = .ret out) : ∀ a ∈ out, P a := by
  induction aps generalizing acc with
  | nil =>
    simp only [scanAccessPoints, GoResult.ret.injEq] at h
    subst h
    exact hacc
  | cons ap rest ih =>
    simp only [scanAccessPoints] at h
    cases hs : scanAccessPoint bus (mapOrder ap) ap with
    | ret a =>
      rw [hs] at h
      apply ih (acc ++ [a]) _ h
      intro x hx
      rcases List.mem_append.1 hx with hx | hx
      · exact hacc x hx
      · rw [List.mem_singleton.1 hx]
        exact hP ap a hs
    | panic m => rw [hs] at h; cases h
    | fatal m => rw [hs] at h; cases h

theorem scanDevices_all (P : WiFiAccessPoint → Prop) (bus : Bus)
    (mapOrder : ObjectPath → List (freqRange × Int)) (networkInterfaceName : String)
    (hP : ∀ ap a, scanAccessPoint bus (mapOrder ap) ap = .ret a → P a)
    (devices : List ObjectPath) (acc out : List WiFiAccessPoint) (hacc : ∀ a ∈ acc, P a)
    (h : scanDevices bus mapOrder networkInterfaceName devices acc = .ret out) :
    ∀ a ∈ out, P a := by
  induction devices generalizing acc with
  | nil =>
    simp only [scanDevices, GoResult.ret.injEq] at h
    subst h
    exact hacc
  | cons d rest ih =>
    unfold scanDevices at h
    split at h
    · exact ih acc hacc h
    · split at h
      · exact ih acc hacc h
      · split at h
        · exact ih acc hacc h
        · split at h
          · split at h
            · exact ih acc hacc h
            · split at h
              · exact ih acc hacc h
              · split at h
                · rename_i hscan
                  exact ih _ (scanAccessPoints_all P bus mapOrder hP _ acc _ hacc hscan) h
                · cases h
                · cases h
          · exact ih acc hacc h

/-- C20: for every strength byte `s` of 0..255 the access point `WifiScan` builds has
`RSSI = s` and the rating `rssiToRating s`, which is excellent; every access point that
`WifiScan` returns has a non-negative RSSI and is rated excellent. -/
theorem WifiScan_rating_always_excellent (bus : Bus)
    (mapOrder : ObjectPath → List (freqRange × Int)) (networkInterfaceName : String) :
    (∀ order ap a s, bus.Strength ap = .ok s → s ≤ 255 →
      scanAccessPoint bus order ap = .ret a →
      a.RSSI = s ∧ a.SignalRating = rssiToRating s ∧
      a.SignalRating = WIFI_SIGNAL_STRENGTH_EXCELLENT) ∧
    (∀ accessPoints err, WifiScan bus mapOrder networkInterfaceName = .ret (accessPoints, err) →
      ∀ a ∈ accessPoints, 0 ≤ a.RSSI ∧ a.SignalRating = WIFI_SIGNAL_STRENGTH_EXCELLENT ∧
        a.SignalRating ≠ WIFI_SIGNAL_STRENGTH_GOOD ∧ a.SignalRating ≠ WIFI_SIGNAL_STRENGTH_FAIR ∧
        a.SignalRating ≠ WIFI_SIGNAL_STRENGTH_POOR ∧
        a.SignalRating ≠ WIFI_SIGNAL_STRENGTH_NONE) := by
  constructor
  · intro order ap a s hs hle h
    obtain ⟨s', hs', hr, hrat⟩ := scanAccessPoint_strength bus order ap a h
    rw [hs] at hs'
    cases hs'
    have hmod : int32OfUint8 s = s := by
      unfold int32OfUint8
      have : s % 2 ^ 8 = s := Nat.mod_eq_of_lt (by omega)
      rw [this]
    rw [hmod] at hr hrat
    exact ⟨hr, hrat, by rw [hrat]; exact rssiToRating_of_nonneg _ (Int.ofNat_nonneg _)⟩
  · intro accessPoints err h
    have hP : ∀ ap a, scanAccessPoint bus (mapOrder ap) ap = .ret a →
        0 ≤ a.RSSI ∧ a.SignalRating = WIFI_SIGNAL_STRENGTH_EXCELLENT := by
      intro ap a ha
      obtain ⟨s, _, hr, hrat⟩ := scanAccessPoint_strength bus (mapOrder ap) ap a ha
      have hn := (int32OfUint8_range s).1
      exact ⟨by rw [hr]; exact hn, by rw [hrat]; exact rssiToRating_of_nonneg _ hn⟩
    unfold WifiScan at h
    split at h
    · cases h
    · split at h
      · rename_i hscan
        simp only [GoResult.ret.injEq, Prod.mk.injEq] at h
        obtain ⟨rfl, _⟩ := h
        intro a ha
        have := scanDevices_all _ bus mapOrder networkInterfaceName hP _ [] _
          (by simp) hscan a ha
        refine ⟨this.1, this.2, ?_, ?_, ?_, ?_⟩ <;> rw [this.2] <;> decide
      · cases h
      · cases h

theorem WifiScan_rating_always_excellent_witness :
    ∀ a ∈ WifiScanSpec exampleBus (fun _ => freqRangeToChannel) "" ["/dev/eth0", "/dev/wlan0"],
      0 ≤ a.RSSI ∧ a.SignalRating = WIFI_SIGNAL_STRENGTH_EXCELLENT ∧
        a.SignalRating ≠ WIFI_SIGNAL_STRENGTH_GOOD ∧ a.SignalRating ≠ WIFI_SIGNAL_STRENGTH_FAIR ∧
        a.SignalRating ≠ WIFI_SIGNAL_STRENGTH_POOR ∧
        a.SignalRating ≠ WIFI_SIGNAL_STRENGTH_NONE :=
  (WifiScan_rating_always_excellent exampleBus (fun _ => freqRangeToChannel) "").2 _ none
    (by decide)

/-- C15: the `Scan` handler returns its cap error without calling `WifiScan`, hence without
using the bus, exactly when `MaxTimeSeconds > 60`; every request with
`MaxTimeSeconds ≤ 60`, among them 60, 0 and negative values, calls `WifiScan` and answers
as the request with 0 does. -/
theorem Scan_rejects_exactly_over_cap (bus : Bus)
    (mapOrder : ObjectPath → List (freqRange × Int)) (MaxTimeSeconds : Int) :
    ((wifiServer.Scan bus mapOrder MaxTimeSeconds).wifiScanCalled = false ↔
      MaxTimeSeconds > 60) ∧
    (MaxTimeSeconds > 60 →
      (wifiServer.Scan bus mapOrder MaxTimeSeconds).response =
        .ret (.error "Scan MaxTimeSeconds is capped at 60 seconds")) ∧
    (MaxTimeSeconds ≤ 60 →
      (wifiServer.Scan bus mapOrder MaxTimeSeconds).wifiScanCalled = true ∧
      (wifiServer.Scan bus mapOrder MaxTimeSeconds).response =
        match WifiScan bus mapOrder "" with
        | .ret (_, some err) => .ret (.error err)
        | .ret (accessPoints, none) => .ret (.ok accessPoints)
        | .panic m => .panic m
        | .fatal m => .fatal m) ∧
    (wifiServer.Scan bus mapOrder 60).wifiScanCalled = true ∧
    (wifiServer.Scan bus mapOrder 0).wifiScanCalled = true ∧
    (wifiServer.Scan bus mapOrder (-5)).wifiScanCalled = true ∧
    (wifiServer.Scan bus mapOrder 61).wifiScanCalled = false := by
  have hle : ∀ M : Int, M ≤ 60 →
      (wifiServer.Scan bus mapOrder M).wifiScanCalled = true ∧
      (wifiServer.Scan bus mapOrder M).response =
        match WifiScan bus mapOrder "" with
        | .ret (_, some err) => .ret (.error err)
        | .ret (accessPoints, none) => .ret (.ok accessPoints)
        | .panic m => .panic m
        | .fatal m => .fatal m := by
    intro M hM
    have hcap : ¬ (if M > 0 then M else 0) > 60 := by
      split <;> omega
    unfold wifiServer.Scan
    simp only [hcap, if_false]
    split <;> simp
  have hgt : ∀ M : Int, M > 60 →
      wifiServer.Scan bus mapOrder M =
        { wifiScanCalled := false
          response := .ret (.error "Scan MaxTimeSeconds is capped at 60 seconds") } := by
    intro M hM
    have hpos : M > 0 := by omega
    unfold wifiServer.Scan
    simp [hpos, hM]
  refine ⟨?_, ?_, hle MaxTimeSeconds, (hle 60 (by decide)).1, (hle 0 (by decide)).1,
    (hle (-5) (by decide)).1, by rw [hgt 61 (by decide)]⟩
  · constructor
    · intro h
      by_contra hn
      have := (hle MaxTimeSeconds (by omega)).1
      rw [h] at this
      cases this
    · intro h
      rw [hgt _ h]
  · intro h
    rw [hgt _ h]

theorem Scan_rejects_exactly_over_cap_witness :
    (wifiServer.Scan exampleBus (fun _ => freqRangeToChannel) 300).response =
      .ret (.error "Scan MaxTimeSeconds is capped at 60 seconds") ∧
    (wifiServer.Scan exampleBus (fun _ => freqRangeToChannel) 30).wifiScanCalled = true :=
  ⟨(Scan_rejects_exactly_over_cap exampleBus (fun _ => freqRangeToChannel) 300).2.1 (by decide),
   ((Scan_rejects_exactly_over_cap exampleBus (fun _ => freqRangeToChannel) 30).2.2.1
      (by decide)).1⟩

theorem ConnectWiFi_head (bus : Bus) (request : WiFiConnectRequest) (connection : Profile)
    (h : secretSettings
      [("802-11-wireless", [("ssid", .bytes request.SSID), ("mode", .str "infrastructure")]),
       ("connection", [("type", .str "802-11-wireless"), ("id", .str request.SSID)])]
      request.Secret = .ok connection) :
    (ConnectWiFi bus request).calls.head? = some (.AddConnection connection) := by
  simp only [ConnectWiFi, h]
  cases bus.AddConnection connection with
  | error e => rfl
  | ok newConnPath =>
    cases hd : bus.AllDevices with
    | error e => rfl
    | ok devices =>
      obtain ⟨more, hmore⟩ := findWifiDevice_calls bus devices
        [.AddConnection connection,
         .GetProperty "/org/freedesktop/NetworkManager"
           "org.freedesktop.NetworkManager.AllDevices"]
      simp only [List.cons_append, List.nil_append] at hmore ⊢
      split
      · simp [hmore]
      · split <;> simp [hmore, monitorConnectStatus]

theorem ConnectWiFi_submitted (bus : Bus) (request : WiFiConnectRequest) (connection : Profile)
    (h : secretSettings
      [("802-11-wireless", [("ssid", .bytes request.SSID), ("mode", .str "infrastructure")]),
       ("connection", [("type", .str "802-11-wireless"), ("id", .str request.SSID)])]
      request.Secret = .ok connection) :
    submittedProfile (ConnectWiFi bus request) = some connection := by
  have hhead := ConnectWiFi_head bus request connection h
  unfold submittedProfile
  cases hc : (ConnectWiFi bus request).calls with
  | nil => rw [hc] at hhead; cases hhead
  | cons x rest =>
    rw [hc] at hhead
    simp only [List.head?_cons, Option.some.injEq] at hhead
    subst hhead
    simp [List.findSome?_cons]

/-- C14: the profile `ConnectWiFi` submits with `AddConnection` always has the groups
`802-11-wireless` (SSID bytes, mode infrastructure) and `connection` (type, id = SSID); for
`IsOpen = true` its security group is `key-mgmt = none`; for a password it is
`key-mgmt = wpa-psk` with the password as `psk`; for an EAP configuration it is
`key-mgmt = wpa-eap` with an `802-1x` group holding the EAP methods, the identity and the
password, then `client-cert` exactly when the client certificate is non-empty and
`ca-cert` exactly when the CA certificate is non-empty; no other variant has an `802-1x`
group. -/
theorem ConnectWiFi_profile_by_secret (bus : Bus) (ssid password : String)
    (eap : WiFiEAPConfig) :
    submittedProfile (ConnectWiFi bus ⟨ssid, some (.IsOpen true)⟩) = some
      [("802-11-wireless", [("ssid", .bytes ssid), ("mode", .str "infrastructure")]),
       ("connection", [("type", .str "802-11-wireless"), ("id", .str ssid)]),
       ("802-11-wireless-security", [("key-mgmt", .str "none")])] ∧
    submittedProfile (ConnectWiFi bus ⟨ssid, some (.Password password)⟩) = some
      [("802-11-wireless", [("ssid", .bytes ssid), ("mode", .str "infrastructure")]),
       ("connection", [("type", .str "802-11-wireless"), ("id", .str ssid)]),
       ("802-11-wireless-security", [("key-mgmt", .str "wpa-psk"), ("psk", .str password)])] ∧
    submittedProfile (ConnectWiFi bus ⟨ssid, some (.EapConfig eap)⟩) = some
      [("802-11-wireless", [("ssid", .bytes ssid), ("mode", .str "infrastructure")]),
       ("connection", [("type", .str "802-11-wireless"), ("id", .str ssid)]),
       ("802-11-wireless-security", [("key-mgmt", .str "wpa-eap")]),
       ("802-1x",
         [("eap", .strs ["tls", "peap", "ttls"]), ("identity", .str eap.Identity),
          ("password", .str eap.Password)] ++
         (if eap.ClientCertificate = "" then [] else
           [("client-cert", .str eap.ClientCertificate)]) ++
         (if eap.CaCertificate = "" then [] else [("ca-cert", .str eap.CaCertificate)]))] ∧
    submittedProfile (ConnectWiFi bus ⟨ssid, none⟩) = some
      [("802-11-wireless", [("ssid", .bytes ssid), ("mode", .str "infrastructure")]),
       ("connection", [("type", .str "802-11-wireless"), ("id", .str ssid)])] ∧
    submittedProfile (ConnectWiFi bus ⟨ssid, some (.IsOpen false)⟩) = none := by
  refine ⟨?_, ?_, ?_, ?_, ?_⟩
  · exact ConnectWiFi_submitted bus _ _ (by simp [secretSettings, mapSet])
  · exact ConnectWiFi_submitted bus _ _ (by simp [secretSettings, mapSet])
  · apply ConnectWiFi_submitted bus
    by_cases h1 : eap.ClientCertificate = "" <;> by_cases h2 : eap.CaCertificate = "" <;>
      simp [secretSettings, mapSet, h1, h2]
  · exact ConnectWiFi_submitted bus _ _ (by simp [secretSettings])
  · rfl

/-! ## Theorems: the waits on the signal stream -/

/-- C16: the code does not follow the numbering of the bus. A `StateChanged` signal
reporting deactivated (4) does not end `monitorConnectStatus`, which then times out, and a
signal reporting deactivating (3) ends it with the error `connection deactivated`, even
when the activated signal follows. -/
theorem monitorConnectStatus_fails_on_3_not_4 :
    monitorConnectLoop
      [(0, ⟨"org.freedesktop.NetworkManager.Connection.Active.StateChanged", "/active/1",
          [4, 3, 0]⟩)] 0 = (.ret (some "connection timeout"), 30000) ∧
    monitorConnectLoop
      [(0, ⟨"org.freedesktop.NetworkManager.Connection.Active.StateChanged", "/active/1",
          [3, 2, 0]⟩),
       (10, ⟨"org.freedesktop.NetworkManager.Connection.Active.StateChanged", "/active/1",
          [2, 3, 0]⟩)] 0 = (.ret (some "connection deactivated"), 0) := by
  decide

/-- C17, counterexample: on a bus where the connection is submitted and activated and no
signal arrives, `ConnectWiFi` returns the timeout error after 30000 ms, not 60000 ms. -/
theorem ConnectWiFi_times_out_after_30s :
    busNoSignal.signals = [] ∧
    (ConnectWiFi busNoSignal ⟨"home", some (.IsOpen true)⟩).result =
      .ret (some "connection timeout") ∧
    (ConnectWiFi busNoSignal ⟨"home", some (.IsOpen true)⟩).waited = 30000 ∧
    (ConnectWiFi busNoSignal ⟨"home", some (.IsOpen true)⟩).waited ≠ 60000 := by
  decide

/-- C17, amended: the wait of `monitorConnectStatus` uses a 30-second timer; when no signal
arrives within 30 seconds it returns its timeout error after 30000 ms. -/
theorem monitorConnectStatus_timeout_30s (bus : Bus) (calls : List BusCall)
    (h : ∀ e, bus.signals.head? = some e → 30000 ≤ e.1) :
    monitorConnectStatus bus calls =
      { calls := calls ++ [.Signal], result := .ret (some "connection timeout"),
        waited := 30000 } := by
  unfold monitorConnectStatus
  cases hs : bus.signals with
  | nil => simp [monitorConnectLoop]
  | cons e rest =>
    obtain ⟨delay, sig⟩ := e
    have := h (delay, sig) (by simp [hs])
    have hnot : ¬ delay < 30000 := by simpa using this
    simp [monitorConnectLoop, hnot]

theorem monitorConnectStatus_timeout_30s_witness :
    monitorConnectStatus busNoSignal [] =
      { calls := [.Signal], result := .ret (some "connection timeout"), waited := 30000 } :=
  monitorConnectStatus_timeout_30s busNoSignal [] (by decide)

/-- C11: on a bus where the hotspot profile is submitted and activated and no signal
arrives, `monitorHotspotStart` ends with the error `hotspot activation timeout` after 30000
ms, and `StartHotspot` returns nil. -/
theorem StartHotspot_returns_nil_on_timeout :
    (monitorHotspotStart busNoSignal "/settings/1" []).result =
      .ret (some "hotspot activation timeout") ∧
    (StartHotspot busNoSignal "hot" "secret" "").result = .ret none ∧
    (StartHotspot busNoSignal "hot" "secret" "").waited = 30000 ∧
    BusCall.ActivateConnection "/settings/1" "/dev/wlan0" "/" ∈
      (StartHotspot busNoSignal "hot" "secret" "").calls := by
  decide

theorem monitorConnectLoop_step (delay : Nat) (sig : Signal) (rest : List (Nat × Signal))
    (waited : Nat) (hd : delay < 30000) (hs : endsConnectWait sig = false) :
    monitorConnectLoop ((delay, sig) :: rest) waited =
      monitorConnectLoop rest (waited + delay) := by
  unfold endsConnectWait at hs
  by_cases hn : sig.Name = "org.freedesktop.NetworkManager.Connection.Active.StateChanged"
  · cases hb : sig.Body with
    | nil => simp [hn, hb] at hs
    | cons state tl =>
      simp only [hn, hb, beq_self_eq_true, Bool.true_and, Bool.or_eq_false_iff,
        beq_eq_false_iff_ne, ne_eq] at hs
      simp [monitorConnectLoop, hd, hn, hb, hs.1, hs.2]
  · simp [monitorConnectLoop, hd, hn]

theorem monitorHotspotLoop_step (bus : Bus) (connPath : ObjectPath) (delay : Nat)
    (sig : Signal) (rest : List (Nat × Signal)) (waited : Nat) (calls : List BusCall)
    (hd : delay < 30000) (hw : wellFormed sig) (hs : hotspotMatches bus connPath sig = false) :
    ∃ calls2, monitorHotspotLoop bus connPath ((delay, sig) :: rest) waited calls =
      monitorHotspotLoop bus connPath rest (waited + delay) calls2 := by
  unfold hotspotMatches at hs
  by_cases hn : sig.Name = "org.freedesktop.NetworkManager.Connection.Active.StateChanged"
  · cases hb : sig.Body with
    | nil => exact absurd hb (hw hn)
    | cons state tl =>
      simp only [hn, hb, beq_self_eq_true, Bool.true_and] at hs
      by_cases h2 : state = 2
      · cases hp : bus.ActiveConnection sig.Path with
        | error e =>
          exact ⟨(calls ++ [.GetProperty sig.Path "org.freedesktop.NetworkManager.Connection.Active.Connection"]),
            by simp [monitorHotspotLoop, hd, hn, hb, h2, hp]⟩
        | ok connProp =>
          have hne : connProp ≠ connPath := by
            simpa [h2, hp] using hs
          exact ⟨(calls ++ [.GetProperty sig.Path "org.freedesktop.NetworkManager.Connection.Active.Connection"]),
            by simp [monitorHotspotLoop, hd, hn, hb, h2, hp, hne]⟩
      · exact ⟨calls, by simp [monitorHotspotLoop, hd, hn, hb, h2]⟩
  · exact ⟨calls, by simp [monitorHotspotLoop, hd, hn]⟩

theorem monitorHotspotLoop_match (bus : Bus) (connPath : ObjectPath) (delay : Nat)
    (sig : Signal) (rest : List (Nat × Signal)) (waited : Nat) (calls : List BusCall)
    (hd : delay < 30000) (hs : hotspotMatches bus connPath sig = true) :
    monitorHotspotLoop bus connPath ((delay, sig) :: rest) waited calls =
      { calls := calls ++
          [.GetProperty sig.Path "org.freedesktop.NetworkManager.Connection.Active.Connection"]
        result := .ret none
        waited := waited + delay } := by
  unfold hotspotMatches at hs
  simp only [Bool.and_eq_true, beq_iff_eq] at hs
  obtain ⟨hn, hrest⟩ := hs
  cases hb : sig.Body with
  | nil => simp [hb] at hrest
  | cons state tl =>
    rw [hb] at hrest
    simp only [Bool.and_eq_true, beq_iff_eq] at hrest
    obtain ⟨h2, hp⟩ := hrest
    cases hq : bus.ActiveConnection sig.Path with
    | error e => simp [hq] at hp
    | ok connProp =>
      have : connProp = connPath := by simpa [hq] using hp
      simp [monitorHotspotLoop, hd, hn, hb, h2, hq, this]

theorem receivedInTime_cons_lt (delay : Nat) (sig : Signal) (rest : List (Nat × Signal))
    (hd : delay < 30000) :
    receivedInTime ((delay, sig) :: rest) = (delay, sig) :: receivedInTime rest := by
  simp [receivedInTime, List.takeWhile_cons, hd]

theorem receivedInTime_cons_ge (delay : Nat) (sig : Signal) (rest : List (Nat × Signal))
    (hd : ¬ delay < 30000) : receivedInTime ((delay, sig) :: rest) = [] := by
  simp [receivedInTime, List.takeWhile_cons, hd]

theorem monitorConnectLoop_timeout (events : List (Nat × Signal)) (waited : Nat)
    (h : ∀ e ∈ receivedInTime events, endsConnectWait e.2 = false) :
    monitorConnectLoop events waited =
      (.ret (some "connection timeout"),
        waited + ((receivedInTime events).map Prod.fst).sum + 30000) := by
  induction events generalizing waited with
  | nil => simp [monitorConnectLoop, receivedInTime]
  | cons e rest ih =>
    obtain ⟨delay, sig⟩ := e
    by_cases hd : delay < 30000
    · rw [receivedInTime_cons_lt delay sig rest hd] at h ⊢
      rw [monitorConnectLoop_step delay sig rest waited hd (h _ (List.mem_cons_self _ _)),
        ih (waited + delay) (fun x hx => h x (List.mem_cons_of_mem _ hx))]
      simp [Nat.add_assoc]
    · rw [receivedInTime_cons_ge delay sig rest hd]
      simp [monitorConnectLoop, hd]

theorem monitorHotspotLoop_timeout (bus : Bus) (connPath : ObjectPath)
    (events : List (Nat × Signal)) (waited : Nat) (calls : List BusCall)
    (hw : ∀ e ∈ receivedInTime events, wellFormed e.2)
    (h : ∀ e ∈ receivedInTime events, hotspotMatches bus connPath e.2 = false) :
    (monitorHotspotLoop bus connPath events waited calls).result =
      .ret (some "hotspot activation timeout") ∧
    (monitorHotspotLoop bus connPath events waited calls).waited =
      waited + ((receivedInTime events).map Prod.fst).sum + 30000 := by
  induction events generalizing waited calls with
  | nil => simp [monitorHotspotLoop, receivedInTime]
  | cons e rest ih =>
    obtain ⟨delay, sig⟩ := e
    by_cases hd : delay < 30000
    · rw [receivedInTime_cons_lt delay sig rest hd] at h hw ⊢
      obtain ⟨calls2, hstep⟩ := monitorHotspotLoop_step bus connPath delay sig rest waited calls
        hd (hw _ (List.mem_cons_self _ _)) (h _ (List.mem_cons_self _ _))
      rw [hstep]
      have := ih (waited + delay) calls2 (fun x hx => hw x (List.mem_cons_of_mem _ hx))
        (fun x hx => h x (List.mem_cons_of_mem _ hx))
      refine ⟨this.1, ?_⟩
      rw [this.2]
      simp [Nat.add_assoc]
    · rw [receivedInTime_cons_ge delay sig rest hd]
      simp [monitorHotspotLoop, hd]

/-- C18: two signals of another interface, each received 20 seconds after the wait for it
began, restart the timer of both waits. The timeout error is returned 70000 ms after the
start of the wait, not at the 30000 ms deadline, and in `ConnectWiFi` later than the minute
the `Connect` handler puts on the context. -/
theorem monitor_timeout_moved_by_signals :
    monitorConnectLoop slowOtherSignals 0 = (.ret (some "connection timeout"), 70000) ∧
    (monitorHotspotLoop exampleBus "/settings/1" slowOtherSignals 0 []).result =
      .ret (some "hotspot activation timeout") ∧
    (monitorHotspotLoop exampleBus "/settings/1" slowOtherSignals 0 []).waited = 70000 ∧
    (ConnectWiFi busSlowSignals ⟨"home", some (.IsOpen true)⟩).result =
      .ret (some "connection timeout") ∧
    (ConnectWiFi busSlowSignals ⟨"home", some (.IsOpen true)⟩).waited = 70000 ∧
    (30000 : Nat) < (ConnectWiFi busSlowSignals ⟨"home", some (.IsOpen true)⟩).waited ∧
    (60000 : Nat) < (ConnectWiFi busSlowSignals ⟨"home", some (.IsOpen true)⟩).waited := by
  decide

theorem monitorHotspotLoop_result (bus : Bus) (connPath : ObjectPath)
    (events : List (Nat × Signal)) (waited : Nat) (calls : List BusCall) :
    (monitorHotspotLoop bus connPath events waited calls).result = .ret none ∨
    (monitorHotspotLoop bus connPath events waited calls).result =
      .ret (some "hotspot activation timeout") ∨
    ∃ m, (monitorHotspotLoop bus connPath events waited calls).result = .panic m := by
  induction events generalizing waited calls with
  | nil => simp [monitorHotspotLoop]
  | cons e rest ih =>
    obtain ⟨delay, sig⟩ := e
    unfold monitorHotspotLoop
    split
    · split
      · split
        · simp
        · split
          · split
            · exact ih _ _
            · split
              · exact ih _ _
              · simp
          · split
            · exact ih _ _
            · exact ih _ _
      · exact ih _ _
    · simp

theorem monitorHotspotLoop_first_match (bus : Bus) (connPath : ObjectPath)
    (events pre post : List (Nat × Signal)) (e : Nat × Signal) (waited : Nat)
    (calls : List BusCall) (hrec : receivedInTime events = pre ++ e :: post)
    (hw : ∀ x ∈ receivedInTime events, wellFormed x.2)
    (hpre : ∀ x ∈ pre, hotspotMatches bus connPath x.2 = false)
    (he : hotspotMatches bus connPath e.2 = true) :
    (monitorHotspotLoop bus connPath events waited calls).result = .ret none ∧
    (monitorHotspotLoop bus connPath events waited calls).waited =
      waited + (pre.map Prod.fst).sum + e.1 := by
  induction events generalizing pre waited calls with
  | nil => simp [receivedInTime] at hrec
  | cons x rest ih =>
    obtain ⟨delay, sig⟩ := x
    by_cases hd : delay < 30000
    · rw [receivedInTime_cons_lt delay sig rest hd] at hrec hw
      cases pre with
      | nil =>
        simp only [List.nil_append, List.cons.injEq] at hrec
        obtain ⟨rfl, _⟩ := hrec
        rw [monitorHotspotLoop_match bus connPath delay sig rest waited calls hd he]
        simp
      | cons y pre2 =>
        simp only [List.cons_append, List.cons.injEq] at hrec
        obtain ⟨rfl, hrest⟩ := hrec
        obtain ⟨calls2, hstep⟩ := monitorHotspotLoop_step bus connPath delay sig rest waited
          calls hd (hw _ (List.mem_cons_self _ _)) (hpre _ (List.mem_cons_self _ _))
        rw [hstep]
        have := ih pre2 (waited + delay) calls2 hrest
          (fun x hx => hw x (List.mem_cons_of_mem _ hx))
          (fun x hx => hpre x (List.mem_cons_of_mem _ hx))
        refine ⟨this.1, ?_⟩
        rw [this.2]
        simp [Nat.add_assoc]
    · rw [receivedInTime_cons_ge delay sig rest hd] at hrec
      simp at hrec

/-- C19: `monitorHotspotStart` returns success exactly at the first received
`StateChanged` signal reporting state 2 whose `Connection` property read succeeds and
gives `connPath`, after the waits for the signals up to it; any other signal (an activated
signal whose read fails or gives another path, a deactivated signal, a signal with another
name) leaves it waiting, so that without such a signal it ends with the timeout error; and
the only error it returns is the timeout. -/
theorem monitorHotspotStart_success_at_first_match (bus : Bus) (connPath : ObjectPath)
    (calls : List BusCall) (hw : ∀ x ∈ receivedInTime bus.signals, wellFormed x.2) :
    (∀ pre e post, receivedInTime bus.signals = pre ++ e :: post →
      (∀ x ∈ pre, hotspotMatches bus connPath x.2 = false) →
      hotspotMatches bus connPath e.2 = true →
      (monitorHotspotStart bus connPath calls).result = .ret none ∧
      (monitorHotspotStart bus connPath calls).waited = (pre.map Prod.fst).sum + e.1) ∧
    ((∀ x ∈ receivedInTime bus.signals, hotspotMatches bus connPath x.2 = false) →
      (monitorHotspotStart bus connPath calls).result =
        .ret (some "hotspot activation timeout")) ∧
    (∀ err, (monitorHotspotStart bus connPath calls).result = .ret (some err) →
      err = "hotspot activation timeout") := by
  refine ⟨?_, ?_, ?_⟩
  · intro pre e post hrec hpre he
    simpa [monitorHotspotStart] using
      monitorHotspotLoop_first_match bus connPath bus.signals pre post e 0 (calls ++ [.Signal])
        hrec hw hpre he
  · intro h
    exact (monitorHotspotLoop_timeout bus connPath bus.signals 0 (calls ++ [.Signal]) hw h).1
  · intro err herr
    unfold monitorHotspotStart at herr
    rcases monitorHotspotLoop_result bus connPath bus.signals 0 (calls ++ [.Signal]) with
      h | h | ⟨m, h⟩
    · rw [h] at herr; cases herr
    · rw [h] at herr
      simp only [GoResult.ret.injEq, Option.some.injEq] at herr
      exact herr.symm
    · rw [h] at herr; cases herr

theorem exampleBus_signals_wellFormed :
    ∀ x ∈ receivedInTime exampleBus.signals, wellFormed x.2 := by
  simp [receivedInTime, exampleBus, wellFormed, List.takeWhile_cons]

theorem monitorHotspotStart_success_at_first_match_witness :
    (monitorHotspotStart exampleBus "/settings/1" []).result = .ret none ∧
    (monitorHotspotStart exampleBus "/settings/1" []).waited = 1000 :=
  (monitorHotspotStart_success_at_first_match exampleBus "/settings/1" []
    exampleBus_signals_wellFormed).1
    [(100, ⟨"org.freedesktop.NetworkManager.Connection.Active.StateChanged", "/active/1",
        [1, 0, 0]⟩)]
    (900, ⟨"org.freedesktop.NetworkManager.Connection.Active.StateChanged", "/active/1",
        [2, 1, 0]⟩)
    [] (by decide) (by decide) (by decide)

/-! ## Theorems: the calls of the hotspot workflow -/

theorem append_ne_noWifi (p e : String) (hp : p.data.head? = some 'f') :
    p ++ e ≠ "no WiFi device found" := by
  intro h
  have := congrArg String.data h
  rw [String.data_append] at this
  cases hd : p.data with
  | nil => simp [hd] at hp
  | cons c cs =>
    rw [hd] at this hp
    simp at hp
    subst hp
    simp at this

theorem findWifiDevice_filter (f : BusCall → Bool) (hf : ∀ o p, f (.GetProperty o p) = false)
    (bus : Bus) (devices : List ObjectPath) (calls : List BusCall) :
    (findWifiDevice bus devices calls).2.filter f = calls.filter f := by
  induction devices generalizing calls with
  | nil => rfl
  | cons d rest ih =>
    unfold findWifiDevice
    split
    · rw [ih]; simp [List.filter_append, hf]
    · split
      · simp [List.filter_append, hf]
      · rw [ih]; simp [List.filter_append, hf]

theorem findHotspotDevice_filter (f : BusCall → Bool)
    (hf : ∀ o p, f (.GetProperty o p) = false) (bus : Bus) (hotspotInterfaceName : String)
    (devices : List ObjectPath) (calls : List BusCall) :
    (findHotspotDevice bus hotspotInterfaceName devices calls).2.filter f = calls.filter f := by
  induction devices generalizing calls with
  | nil => rfl
  | cons d rest ih =>
    unfold findHotspotDevice
    split
    · rw [ih]; simp [List.filter_append, hf]
    · split
      · rw [ih]; simp [List.filter_append, hf]
      · split
        · split
          · rw [ih]; simp [List.filter_append, hf]
          · simp [List.filter_append, hf]
        · split
          · simp [List.filter_append, hf]
          · rw [ih]; simp [List.filter_append, hf]

theorem monitorHotspotLoop_filter (f : BusCall → Bool)
    (hf : ∀ o p, f (.GetProperty o p) = false) (bus : Bus) (connPath : ObjectPath)
    (events : List (Nat × Signal)) (waited : Nat) (calls : List BusCall) :
    (monitorHotspotLoop bus connPath events waited calls).calls.filter f = calls.filter f := by
  induction events generalizing waited calls with
  | nil => rfl
  | cons e rest ih =>
    obtain ⟨delay, sig⟩ := e
    unfold monitorHotspotLoop
    split
    · split
      · split
        · rfl
        · split
          · split
            · rw [ih]; simp [List.filter_append, hf]
            · split
              · rw [ih]; simp [List.filter_append, hf]
              · simp [List.filter_append, hf]
          · split
            · exact ih _ _
            · exact ih _ _
      · exact ih _ _
    · rfl

theorem removeExisting_activation (bus : Bus) (hotspotSSID : String)
    (connections : List ObjectPath) (calls : List BusCall) :
    (removeExisting bus hotspotSSID connections calls).2.filter isActivation =
      calls.filter isActivation := by
  induction connections generalizing calls with
  | nil => rfl
  | cons c rest ih =>
    unfold removeExisting
    split
    · simp [List.filter_append, isActivation]
    · split
      · rw [ih]; simp [List.filter_append, isActivation]
      · split
        · split
          · simp [List.filter_append, isActivation]
          · rw [ih]; simp [List.filter_append, isActivation]
        · rw [ih]; simp [List.filter_append, isActivation]

theorem removeExisting_result_ne (bus : Bus) (hotspotSSID : String)
    (connections : List ObjectPath) (calls : List BusCall) (r : GoResult (Option String))
    (h : (removeExisting bus hotspotSSID connections calls).1 = some r) :
    r ≠ .ret (some "no WiFi device found") := by
  induction connections generalizing calls with
  | nil => simp [removeExisting] at h
  | cons c rest ih =>
    unfold removeExisting at h
    split at h
    · simp only [Option.some.injEq] at h
      subst h
      intro hc; cases hc
    · split at h
      · exact ih _ h
      · split at h
        · split at h
          · simp only [Option.some.injEq] at h
            subst h
            intro hc
            simp only [GoResult.ret.injEq, Option.some.injEq] at hc
            exact append_ne_noWifi _ _ (by decide) hc
          · exact ih _ h
        · exact ih _ h

theorem removeExisting_profile (bus : Bus) (hotspotSSID : String)
    (connections : List ObjectPath) (calls : List BusCall)
    (h : (removeExisting bus hotspotSSID connections calls).1 = none) :
    (removeExisting bus hotspotSSID connections calls).2.filter isProfileChange =
      calls.filter isProfileChange ++
        (connections.filter (matchesSSID bus hotspotSSID)).map .Delete := by
  induction connections generalizing calls with
  | nil => simp [removeExisting]
  | cons c rest ih =>
    cases hget : bus.GetSettings c with
    | error e => simp [removeExisting, hget] at h
    | ok settingsInfo =>
      cases hs : ssidOfSettings settingsInfo with
      | none =>
        have hm : matchesSSID bus hotspotSSID c = false := by simp [matchesSSID, hget, hs]
        simp only [removeExisting, hget, hs] at h ⊢
        rw [ih _ h]
        simp [List.filter_append, isProfileChange, List.filter_cons, hm]
      | some ssid =>
        by_cases heq : ssid = hotspotSSID
        · have hm : matchesSSID bus hotspotSSID c = true := by
            simp [matchesSSID, hget, hs, heq]
          cases hdel : bus.Delete c with
          | error e => simp [removeExisting, hget, hs, heq, hdel] at h
          | ok u =>
            simp only [removeExisting, hget, hs, heq, hdel, if_true] at h ⊢
            rw [ih _ h]
            simp [List.filter_append, isProfileChange, List.filter_cons, hm]
        · have hm : matchesSSID bus hotspotSSID c = false := by
            simp [matchesSSID, hget, hs, heq]
          simp only [removeExisting, hget, hs, heq, if_false] at h ⊢
          rw [ih _ h]
          simp [List.filter_append, isProfileChange, List.filter_cons, hm]

theorem deactivateActive_filter (f : BusCall → Bool)
    (hf : ∀ o p, f (.GetProperty o p) = false) (hd : ∀ c, f (.Deactivate c) = false)
    (bus : Bus) (wifiDevice : ObjectPath) (activeConnections : List ObjectPath)
    (calls : List BusCall) :
    (deactivateActive bus wifiDevice activeConnections calls).filter f = calls.filter f := by
  induction activeConnections generalizing calls with
  | nil => rfl
  | cons c rest ih =>
    unfold deactivateActive
    split
    · rw [ih]; simp [List.filter_append, hf]
    · split
      · rw [ih]; simp [List.filter_append, hf, hd]
      · rw [ih]; simp [List.filter_append, hf]

theorem StartHotspot_profile_calls (bus : Bus)
    (hotspotSSID hotspotPassword hotspotInterfaceName : String)
    (connections : List ObjectPath) (hl : bus.ListConnections = .ok connections)
    (hr : (removeExisting bus hotspotSSID connections [.ListConnections]).1 = none) :
    (StartHotspot bus hotspotSSID hotspotPassword hotspotInterfaceName).calls.filter
        isProfileChange =
      (connections.filter (matchesSSID bus hotspotSSID)).map .Delete ++
        [.AddConnection (hotspotConfig hotspotSSID hotspotPassword hotspotInterfaceName)] := by
  have hc1 := removeExisting_profile bus hotspotSSID connections [.ListConnections] hr
  cases hre : removeExisting bus hotspotSSID connections [.ListConnections] with
  | mk r calls1 =>
    rw [hre] at hr hc1
    simp only at hr hc1
    subst hr
    have hc1 : calls1.filter isProfileChange =
        (connections.filter (matchesSSID bus hotspotSSID)).map .Delete := by
      simpa [isProfileChange] using hc1
    have hg : ∀ o p, isProfileChange (.GetProperty o p) = false := fun _ _ => rfl
    have hd : ∀ c, isProfileChange (.Deactivate c) = false := fun _ => rfl
    unfold StartHotspot
    simp only [hl, hre]
    repeat' split
    all_goals
      simp [List.filter_append, findHotspotDevice_filter isProfileChange hg,
        deactivateActive_filter isProfileChange hg hd, monitorHotspotStart,
        monitorHotspotLoop_filter isProfileChange hg, hc1, isProfileChange]

set_option linter.unusedTactic false in
theorem StartHotspot_noWifi_calls (bus : Bus)
    (hotspotSSID hotspotPassword hotspotInterfaceName : String)
    (h : (StartHotspot bus hotspotSSID hotspotPassword hotspotInterfaceName).result =
      .ret (some "no WiFi device found")) :
    (∃ connections, bus.ListConnections = .ok connections ∧
      (removeExisting bus hotspotSSID connections [.ListConnections]).1 = none) ∧
    (StartHotspot bus hotspotSSID hotspotPassword hotspotInterfaceName).calls.filter
      isActivation = [] := by
  cases hl : bus.ListConnections with
  | error e =>
    simp only [StartHotspot, hl, GoResult.ret.injEq, Option.some.injEq] at h
    exact absurd h (append_ne_noWifi _ _ (by decide))
  | ok connections =>
    cases hre : removeExisting bus hotspotSSID connections [.ListConnections] with
    | mk r calls1 =>
      cases r with
      | some r =>
        simp only [StartHotspot, hl, hre] at h
        exact absurd h (removeExisting_result_ne bus hotspotSSID connections [.ListConnections]
          r (by rw [hre]))
      | none =>
        refine ⟨⟨connections, rfl, by rw [hre]⟩, ?_⟩
        have ha1 : calls1.filter isActivation = [] := by
          have := removeExisting_activation bus hotspotSSID connections [.ListConnections]
          rw [hre] at this
          simpa [isActivation] using this
        have hg : ∀ o p, isActivation (.GetProperty o p) = false := fun _ _ => rfl
        revert h
        unfold StartHotspot
        simp only [hl, hre]
        repeat' split
        all_goals
          intro h
          first
          | (simp only [GoResult.ret.injEq, Option.some.injEq] at h
             exact absurd h (append_ne_noWifi _ _ (by decide)))
          | (simp at h <;> fail)
          | (simp [List.filter_append, findHotspotDevice_filter isActivation hg, ha1,
               isActivation])

theorem monitorConnectLoop_result_ne (events : List (Nat × Signal)) (waited : Nat) :
    (monitorConnectLoop events waited).1 ≠ .ret (some "no WiFi device found") := by
  induction events generalizing waited with
  | nil => simp [monitorConnectLoop]
  | cons e rest ih =>
    obtain ⟨delay, sig⟩ := e
    unfold monitorConnectLoop
    split
    · split
      · split
        · simp
        · split
          · simp
          · split
            · simp
            · exact ih _
      · exact ih _
    · simp

theorem secretSettings_error (connection : Profile) (secret : Option Secret) (e : String)
    (h : secretSettings connection secret = .error e) : e ≠ "no WiFi device found" := by
  unfold secretSettings at h
  split at h
  · split at h
    · simp only [Except.error.injEq] at h
      subst h
      decide
    · cases h
  · cases h
  · cases h
  · cases h

theorem ConnectWiFi_noWifi_calls (bus : Bus) (request : WiFiConnectRequest)
    (h : (ConnectWiFi bus request).result = .ret (some "no WiFi device found")) :
    ∃ connection, (ConnectWiFi bus request).calls.filter isProfileChange =
        [.AddConnection connection] ∧
      (ConnectWiFi bus request).calls.filter isActivation = [] := by
  have hg : ∀ o p, isProfileChange (.GetProperty o p) = false := fun _ _ => rfl
  have hg2 : ∀ o p, isActivation (.GetProperty o p) = false := fun _ _ => rfl
  cases hsec : secretSettings
      [("802-11-wireless", [("ssid", .bytes request.SSID), ("mode", .str "infrastructure")]),
       ("connection", [("type", .str "802-11-wireless"), ("id", .str request.SSID)])]
      request.Secret with
  | error e =>
    simp only [ConnectWiFi, hsec, GoResult.ret.injEq, Option.some.injEq] at h
    exact absurd h (secretSettings_error _ _ e hsec)
  | ok connection =>
    refine ⟨connection, ?_⟩
    revert h
    unfold ConnectWiFi
    simp only [hsec]
    repeat' split
    all_goals
      intro h
      first
      | (simp only [GoResult.ret.injEq, Option.some.injEq] at h
         exact absurd h (append_ne_noWifi _ _ (by decide)))
      | (exact absurd h (monitorConnectLoop_result_ne _ _))
      | (simp [List.filter_append, findWifiDevice_filter isProfileChange hg,
           findWifiDevice_filter isActivation hg2, isProfileChange, isActivation])

/-- C12, counterexample: on a bus without a wireless device both workflows fail with
`no WiFi device found` after their `AddConnection` call, and `StartHotspot` also after its
`Delete` call on the stored profile with the requested SSID. -/
theorem noWifi_after_profile_calls :
    (ConnectWiFi busNoWifi ⟨"home", some (.Password "secret")⟩).result =
      .ret (some "no WiFi device found") ∧
    (ConnectWiFi busNoWifi ⟨"home", some (.Password "secret")⟩).calls.filter isProfileChange =
      [.AddConnection
        [("802-11-wireless", [("ssid", .bytes "home"), ("mode", .str "infrastructure")]),
         ("connection", [("type", .str "802-11-wireless"), ("id", .str "home")]),
         ("802-11-wireless-security", [("key-mgmt", .str "wpa-psk"), ("psk", .str "secret")])]] ∧
    (StartHotspot busNoWifi "home" "secret" "").result = .ret (some "no WiFi device found") ∧
    (StartHotspot busNoWifi "home" "secret" "").calls.filter isProfileChange =
      [.Delete "/settings/0", .AddConnection (hotspotConfig "home" "secret" "")] := by
  decide

/-- C12, amended: whenever `ConnectWiFi` or `StartHotspot` fails with
`no WiFi device found`, it has made its `AddConnection` call, before the device search, and
no `ActivateConnection` or `Deactivate` call; `ConnectWiFi` has made no `Delete` call, and
`StartHotspot` has before made its `Delete` calls, on the stored profiles with the requested
SSID. -/
theorem noWifi_profile_added (bus : Bus) (request : WiFiConnectRequest)
    (hotspotSSID hotspotPassword hotspotInterfaceName : String) :
    ((ConnectWiFi bus request).result = .ret (some "no WiFi device found") →
      ∃ connection, (ConnectWiFi bus request).calls.filter isProfileChange =
          [.AddConnection connection] ∧
        (ConnectWiFi bus request).calls.filter isActivation = []) ∧
    ((StartHotspot bus hotspotSSID hotspotPassword hotspotInterfaceName).result =
        .ret (some "no WiFi device found") →
      ∃ connections, bus.ListConnections = .ok connections ∧
        (StartHotspot bus hotspotSSID hotspotPassword hotspotInterfaceName).calls.filter
            isProfileChange =
          (connections.filter (matchesSSID bus hotspotSSID)).map .Delete ++
            [.AddConnection (hotspotConfig hotspotSSID hotspotPassword hotspotInterfaceName)] ∧
        (StartHotspot bus hotspotSSID hotspotPassword hotspotInterfaceName).calls.filter
          isActivation = []) := by
  constructor
  · exact ConnectWiFi_noWifi_calls bus request
  · intro h
    obtain ⟨⟨connections, hl, hr⟩, hact⟩ :=
      StartHotspot_noWifi_calls bus hotspotSSID hotspotPassword hotspotInterfaceName h
    exact ⟨connections, hl,
      StartHotspot_profile_calls bus hotspotSSID hotspotPassword hotspotInterfaceName
        connections hl hr, hact⟩

theorem noWifi_profile_added_witness :
    (∃ connection,
      (ConnectWiFi busNoWifi ⟨"home", some (.Password "secret")⟩).calls.filter isProfileChange =
          [.AddConnection connection] ∧
        (ConnectWiFi busNoWifi ⟨"home", some (.Password "secret")⟩).calls.filter isActivation =
          []) ∧
    ∃ connections, busNoWifi.ListConnections = .ok connections ∧
      (StartHotspot busNoWifi "home" "secret" "").calls.filter isProfileChange =
        (connections.filter (matchesSSID busNoWifi "home")).map .Delete ++
          [.AddConnection (hotspotConfig "home" "secret" "")] ∧
      (StartHotspot busNoWifi "home" "secret" "").calls.filter isActivation = [] :=
  ⟨(noWifi_profile_added busNoWifi ⟨"home", some (.Password "secret")⟩ "home" "secret" "").1
      (by decide),
   (noWifi_profile_added busNoWifi ⟨"home", some (.Password "secret")⟩ "home" "secret" "").2
      (by decide)⟩

/-! ## Theorems: the replacement of the hotspot profile -/

theorem removeExisting_completes (bus : Bus) (hotspotSSID : String)
    (connections : List ObjectPath) (calls : List BusCall)
    (hread : ∀ c ∈ connections, (bus.GetSettings c).toBool = true)
    (hdel : ∀ c ∈ connections, matchesSSID bus hotspotSSID c = true →
      (bus.Delete c).toBool = true) :
    (removeExisting bus hotspotSSID connections calls).1 = none := by
  induction connections generalizing calls with
  | nil => rfl
  | cons c rest ih =>
    have hrest := fun calls2 => ih calls2 (fun x hx => hread x (List.mem_cons_of_mem _ hx))
      (fun x hx => hdel x (List.mem_cons_of_mem _ hx))
    have hc := hread c (List.mem_cons_self _ _)
    have hd := hdel c (List.mem_cons_self _ _)
    cases hget : bus.GetSettings c with
    | error e => simp [hget, Except.toBool] at hc
    | ok settingsInfo =>
      cases hs : ssidOfSettings settingsInfo with
      | none => simp only [removeExisting, hget, hs]; exact hrest _
      | some ssid =>
        by_cases heq : ssid = hotspotSSID
        · have hm : matchesSSID bus hotspotSSID c = true := by
            simp [matchesSSID, hget, hs, heq]
          cases hdl : bus.Delete c with
          | error e => simp [hdl, Except.toBool, hm] at hd
          | ok u => simp only [removeExisting, hget, hs, heq, hdl, if_true]; exact hrest _
        · simp only [removeExisting, hget, hs, heq, if_false]; exact hrest _

theorem storeAfter_filter (bus : Bus) (store : Store) (calls : List BusCall) :
    storeAfter bus store calls = storeAfter bus store (calls.filter isProfileChange) := by
  unfold storeAfter
  induction calls generalizing store with
  | nil => rfl
  | cons call rest ih =>
    cases call <;> simp [List.filter_cons, isProfileChange, storeStep, ih]

theorem storeAfter_append (bus : Bus) (store : Store) (xs ys : List BusCall) :
    storeAfter bus store (xs ++ ys) = storeAfter bus (storeAfter bus store xs) ys := by
  simp [storeAfter, List.foldl_append]

theorem storeAfter_deletes (bus : Bus) (store : Store) (ds : List ObjectPath)
    (hok : ∀ c ∈ ds, bus.Delete c = .ok ()) :
    storeAfter bus store (ds.map .Delete) = store.filter (fun e => !decide (e.1 ∈ ds)) := by
  induction ds generalizing store with
  | nil => simp [storeAfter]
  | cons d rest ih =>
    have hd := hok d (List.mem_cons_self _ _)
    simp only [List.map_cons, storeAfter, List.foldl_cons, storeStep, hd]
    have := ih (store.filter (fun e => e.1 != d)) (fun c hc => hok c (List.mem_cons_of_mem _ hc))
    unfold storeAfter at this
    rw [this, List.filter_filter]
    congr 1
    funext e
    by_cases h1 : e.1 = d <;> simp [h1]

theorem ssidOfSettings_hotspotConfig (hotspotSSID hotspotPassword hotspotInterfaceName : String) :
    ssidOfSettings (hotspotConfig hotspotSSID hotspotPassword hotspotInterfaceName) =
      some hotspotSSID := by
  simp [ssidOfSettings, hotspotConfig, mapGet]

theorem StartHotspot_store (bus : Bus) (store : Store)
    (hotspotSSID hotspotPassword hotspotInterfaceName : String) (newPath : ObjectPath)
    (hr : reflects bus store)
    (hadd : bus.AddConnection (hotspotConfig hotspotSSID hotspotPassword hotspotInterfaceName) =
      .ok newPath) :
    storeAfter bus store
        (StartHotspot bus hotspotSSID hotspotPassword hotspotInterfaceName).calls =
      store.filter (fun e => !hasSSID hotspotSSID e) ++
        [(newPath, hotspotConfig hotspotSSID hotspotPassword hotspotInterfaceName)] := by
  obtain ⟨hl, hstore⟩ := hr
  have hmatch : ∀ e ∈ store, matchesSSID bus hotspotSSID e.1 = hasSSID hotspotSSID e := by
    intro e he
    simp [matchesSSID, (hstore e he).1, hasSSID]
  have hcomplete : (removeExisting bus hotspotSSID (store.map Prod.fst) [.ListConnections]).1 =
      none := by
    apply removeExisting_completes
    · intro c hc
      obtain ⟨e, he, rfl⟩ := List.mem_map.1 hc
      simp [(hstore e he).1, Except.toBool]
    · intro c hc _
      obtain ⟨e, he, rfl⟩ := List.mem_map.1 hc
      simp [(hstore e he).2, Except.toBool]
  rw [storeAfter_filter,
    StartHotspot_profile_calls bus hotspotSSID hotspotPassword hotspotInterfaceName
      (store.map Prod.fst) hl hcomplete,
    storeAfter_append, storeAfter_deletes]
  · simp only [storeAfter, List.foldl_cons, List.foldl_nil, storeStep, hadd]
    congr 1
    apply List.filter_congr
    intro e he
    have hmem : (decide (e.1 ∈ List.filter (matchesSSID bus hotspotSSID) (store.map Prod.fst))) =
        hasSSID hotspotSSID e := by
      rw [← hmatch e he]
      by_cases hm : matchesSSID bus hotspotSSID e.1 = true
      · simp only [hm, decide_eq_true_eq, List.mem_filter, and_true]
        exact List.mem_map.2 ⟨e, he, rfl⟩
      · simp [hm]
    rw [hmem]
  · intro c hc
    obtain ⟨hc1, _⟩ := List.mem_filter.1 hc
    obtain ⟨e, he, rfl⟩ := List.mem_map.1 hc1
    exact (hstore e he).2

theorem filter_hasSSID_after (ssid : String) (store : Store) (e : ObjectPath × Profile)
    (he : hasSSID ssid e = true) :
    (store.filter (fun x => !hasSSID ssid x) ++ [e]).filter (hasSSID ssid) = [e] ∧
    (store.filter (fun x => !hasSSID ssid x) ++ [e]).filter (fun x => !hasSSID ssid x) =
      store.filter (fun x => !hasSSID ssid x) := by
  constructor
  · rw [List.filter_append, List.filter_filter]
    simp [he]
  · rw [List.filter_append, List.filter_filter]
    simp [he]

/-- C13, counterexample: the bus stores two profiles with the requested SSID and `Delete`
fails; `StartHotspot` calls `Delete` on the first one only and returns the error, so the
second profile with that SSID gets no `Delete` call. -/
theorem StartHotspot_failing_Delete_stops :
    busFailingDelete.ListConnections = .ok ["/settings/a", "/settings/b"] ∧
    matchesSSID busFailingDelete "hot" "/settings/a" = true ∧
    matchesSSID busFailingDelete "hot" "/settings/b" = true ∧
    (StartHotspot busFailingDelete "hot" "secret" "").calls =
      [.ListConnections, .GetSettings "/settings/a", .Delete "/settings/a"] ∧
    BusCall.Delete "/settings/b" ∉ (StartHotspot busFailingDelete "hot" "secret" "").calls ∧
    (StartHotspot busFailingDelete "hot" "secret" "").result =
      .ret (some "failed to delete existing connection: permission denied") :=
  ⟨rfl, by decide, by decide, by decide, by decide, by decide⟩

/-- C13, amended: when the settings of every listed profile can be read and every `Delete`
on a profile with the requested SSID succeeds, the `Delete` and `AddConnection` calls of
`StartHotspot` are, in this order, one `Delete` for each listed profile whose
`802-11-wireless` ssid equals the requested SSID and then the `AddConnection` of the new
profile. On a bus that stores the profiles as submitted, the profile of a first run is the
only stored one with that SSID after it, and after a second run with the same SSID the only
stored profile with that SSID is the one the second run added. -/
theorem StartHotspot_replaces_profile (bus1 bus2 : Bus) (store : Store)
    (connections : List ObjectPath) (hotspotSSID password1 interface1 password2 interface2 : String)
    (path1 path2 : ObjectPath) :
    (bus1.ListConnections = .ok connections →
      (∀ c ∈ connections, (bus1.GetSettings c).toBool = true) →
      (∀ c ∈ connections, matchesSSID bus1 hotspotSSID c = true →
        (bus1.Delete c).toBool = true) →
      (StartHotspot bus1 hotspotSSID password1 interface1).calls.filter isProfileChange =
        (connections.filter (matchesSSID bus1 hotspotSSID)).map .Delete ++
          [.AddConnection (hotspotConfig hotspotSSID password1 interface1)]) ∧
    (reflects bus1 store →
      bus1.AddConnection (hotspotConfig hotspotSSID password1 interface1) = .ok path1 →
      reflects bus2
        (storeAfter bus1 store (StartHotspot bus1 hotspotSSID password1 interface1).calls) →
      bus2.AddConnection (hotspotConfig hotspotSSID password2 interface2) = .ok path2 →
      (storeAfter bus1 store
          (StartHotspot bus1 hotspotSSID password1 interface1).calls).filter
        (hasSSID hotspotSSID) = [(path1, hotspotConfig hotspotSSID password1 interface1)] ∧
      (storeAfter bus2
          (storeAfter bus1 store (StartHotspot bus1 hotspotSSID password1 interface1).calls)
          (StartHotspot bus2 hotspotSSID password2 interface2).calls).filter
        (hasSSID hotspotSSID) = [(path2, hotspotConfig hotspotSSID password2 interface2)] ∧
      storeAfter bus2
          (storeAfter bus1 store (StartHotspot bus1 hotspotSSID password1 interface1).calls)
          (StartHotspot bus2 hotspotSSID password2 interface2).calls =
        store.filter (fun e => !hasSSID hotspotSSID e) ++
          [(path2, hotspotConfig hotspotSSID password2 interface2)]) := by
  constructor
  · intro hl hread hdel
    exact StartHotspot_profile_calls bus1 hotspotSSID password1 interface1 connections hl
      (removeExisting_completes bus1 hotspotSSID connections _ hread hdel)
  · intro hr1 hadd1 hr2 hadd2
    have h1 := StartHotspot_store bus1 store hotspotSSID password1 interface1 path1 hr1 hadd1
    have h2 := StartHotspot_store bus2 _ hotspotSSID password2 interface2 path2 hr2 hadd2
    have hs1 : hasSSID hotspotSSID (path1, hotspotConfig hotspotSSID password1 interface1) =
        true := by
      simp [hasSSID, ssidOfSettings_hotspotConfig]
    have hs2 : hasSSID hotspotSSID (path2, hotspotConfig hotspotSSID password2 interface2) =
        true := by
      simp [hasSSID, ssidOfSettings_hotspotConfig]
    have hf1 := filter_hasSSID_after hotspotSSID store _ hs1
    rw [h2, h1]
    refine ⟨hf1.1, ?_, ?_⟩
    · rw [hf1.2]
      exact (filter_hasSSID_after hotspotSSID store _ hs2).1
    · rw [hf1.2]

theorem exampleBus_reflects : reflects exampleBus storeBefore :=
  ⟨rfl, by
    intro e he
    simp only [storeBefore, List.mem_singleton] at he
    subst he
    exact ⟨rfl, rfl⟩⟩

theorem storeAfter_first_run :
    storeAfter exampleBus storeBefore (StartHotspot exampleBus "home" "secret" "").calls =
      [("/settings/1", hotspotConfig "home" "secret" "")] := by
  decide

theorem busSecondRun_reflects :
    reflects busSecondRun
      (storeAfter exampleBus storeBefore (StartHotspot exampleBus "home" "secret" "").calls) := by
  rw [storeAfter_first_run]
  refine ⟨rfl, ?_⟩
  intro e he
  simp only [List.mem_singleton] at he
  subst he
  exact ⟨rfl, rfl⟩

theorem StartHotspot_replaces_profile_witness :
    (StartHotspot exampleBus "home" "secret" "").calls.filter isProfileChange =
      (["/settings/0"].filter (matchesSSID exampleBus "home")).map .Delete ++
        [.AddConnection (hotspotConfig "home" "secret" "")] ∧
    (storeAfter busSecondRun
        (storeAfter exampleBus storeBefore (StartHotspot exampleBus "home" "secret" "").calls)
        (StartHotspot busSecondRun "home" "other" "wlan0").calls).filter (hasSSID "home") =
      [("/settings/2", hotspotConfig "home" "other" "wlan0")] :=
  ⟨(StartHotspot_replaces_profile exampleBus busSecondRun storeBefore ["/settings/0"] "home"
      "secret" "" "other" "wlan0" "/settings/1" "/settings/2").1 rfl
      (by decide) (by decide),
   ((StartHotspot_replaces_profile exampleBus busSecondRun storeBefore ["/settings/0"] "home"
      "secret" "" "other" "wlan0" "/settings/1" "/settings/2").2 exampleBus_reflects rfl
      busSecondRun_reflects rfl).2.1⟩

end Iotnetlab
